import Mathlib

/-!
Verification development for the `f1-api` packet decoding library.

The library decodes UDP telemetry packets published by the F1 2019 racing
game. The Rust source reads little-endian fixed-layout binary structures
from a `Cursor<&mut BytesMut>`; errors are `std::io::Error` values carrying
an `ErrorKind` and a message string.

The shallow embedding below models:
  - a `BytesMut` buffer as a `List Nat` of bytes;
  - a `Cursor` as the buffer plus a position (`ByteCursor`);
  - a fallible, cursor-mutating computation as `Dec α`, a state-and-except
    monad whose errors keep the cursor state (matching Rust `&mut` cursors,
    where an early `?` return leaves the cursor wherever it was);
  - `f32` fields as their raw little-endian `u32` bit patterns (no claim in
    this development depends on floating-point semantics);
  - Rust `String` values as the `List Nat` of their bytes.

A `get_*` read past the end of the buffer panics in Rust (the `bytes` crate
asserts `remaining() >= n`); the embedding returns an error with kind
`ErrorKind.panicked` in that case. All length-gated paths proved below never
reach such a read.

Two items referenced by the sources are not present under `src/` (the crate
module `from_bytes` and the function `packet::ensure_packet_size`); they are
modelled from the spec where marked `Modelled from the spec:`.
-/

namespace F1Api

/-- Kinds of `std::io::Error` used by the decoder, plus `panicked`, which
models a Rust panic from reading past the end of a buffer. -/
inductive ErrKind where
  | unexpectedEof
  | invalidData
  | panicked
deriving DecidableEq

/-- A `std::io::Error`: a kind together with its message. -/
structure IoError where
  kind : ErrKind
  msg : String
deriving DecidableEq

deriving instance DecidableEq for Except

/-- A `Cursor<&mut BytesMut>`: the underlying byte buffer and the read
position. Reads advance `pos`; the buffer itself is never mutated by reads. -/
structure ByteCursor where
  buf : List Nat
  pos : Nat
deriving DecidableEq

/-- The number of bytes left to read, `cursor.remaining()`. -/
def ByteCursor.remaining (c : ByteCursor) : Nat :=
  c.buf.length - c.pos

/-- Result of a cursor computation: success or error, in both cases with the
cursor state afterwards (errors do not roll the cursor back, as with a Rust
`&mut` cursor). -/
inductive DRes (α : Type) where
  | ok : α → ByteCursor → DRes α
  | err : IoError → ByteCursor → DRes α

/-- A fallible computation reading from a cursor. -/
abbrev Dec (α : Type) := ByteCursor → DRes α

namespace Dec

def pure' {α : Type} (a : α) : Dec α := fun c => .ok a c

def bind' {α β : Type} (m : Dec α) (f : α → Dec β) : Dec β := fun c =>
  match m c with
  | .ok a c' => f a c'
  | .err e c' => .err e c'

instance : Monad Dec where
  pure := pure'
  bind := bind'

theorem run_pure {α : Type} (a : α) (c : ByteCursor) :
    (Pure.pure a : Dec α) c = .ok a c := rfl

theorem run_bind {α β : Type} (m : Dec α) (f : α → Dec β) (c : ByteCursor) :
    (m >>= f) c = match m c with
      | .ok a c' => f a c'
      | .err e c' => .err e c' := rfl

theorem run_bind_eval {α β : Type} {m : Dec α} {f : α → Dec β}
    {c : ByteCursor} {a : α} {cm : ByteCursor} (hm : m c = .ok a cm) :
    (m >>= f) c = f a cm := by
  rw [run_bind, hm]

/-- Lift a pure `Result` (e.g. a `TryFrom` conversion) into the cursor monad;
the cursor is untouched. This is Rust's `?` on a value not involving the
cursor. -/
def liftE {α : Type} (x : Except IoError α) : Dec α := fun c =>
  match x with
  | .ok a => .ok a c
  | .error e => .err e c

/-- Fail the computation with an error. -/
def throw' {α : Type} (e : IoError) : Dec α := fun c => .err e c

end Dec

open Dec (liftE)

/-- Read one byte, `cursor.get_u8()`. Panics (here: `ErrKind.panicked`) when
no byte remains. -/
def get_u8 : Dec Nat := fun c =>
  if c.pos < c.buf.length then
    .ok (c.buf.getD c.pos 0) ⟨c.buf, c.pos + 1⟩
  else
    .err ⟨.panicked, "self.remaining() >= 1"⟩ c

/-- The signed value of a byte read as an `i8`. -/
def i8_of_byte (b : Nat) : Int :=
  if b < 128 then (b : Int) else (b : Int) - 256

/-- Read one byte as a signed `i8`, `cursor.get_i8()`. -/
def get_i8 : Dec Int := do
  let b ← get_u8
  pure (i8_of_byte b)

/-- Read a little-endian `u16`, `cursor.get_u16_le()`. -/
def get_u16_le : Dec Nat := do
  let b0 ← get_u8
  let b1 ← get_u8
  pure (b0 + 256 * b1)

/-- Read a little-endian `i16`, `cursor.get_i16_le()`. -/
def get_i16_le : Dec Int := do
  let v ← get_u16_le
  pure (if v < 32768 then (v : Int) else (v : Int) - 65536)

/-- Read a little-endian `u32`, `cursor.get_u32_le()`. -/
def get_u32_le : Dec Nat := do
  let b0 ← get_u8
  let b1 ← get_u8
  let b2 ← get_u8
  let b3 ← get_u8
  pure (b0 + 256 * b1 + 65536 * b2 + 16777216 * b3)

/-- Read a little-endian `u64`, `cursor.get_u64_le()`. -/
def get_u64_le : Dec Nat := do
  let lo ← get_u32_le
  let hi ← get_u32_le
  pure (lo + 4294967296 * hi)

/-- Read a little-endian `f32`, `cursor.get_f32_le()`, kept as its raw `u32`
bit pattern: no verified claim interprets float values. -/
def get_f32_le : Dec Nat := get_u32_le

/-- Set the cursor position, `cursor.set_position(n)`. -/
def set_position (n : Nat) : Dec Unit := fun c => .ok () ⟨c.buf, n⟩

/-! ## Flags (`src/nineteen.rs` lines 41-48 and 68-82, `src/nineteen/flag.rs`) -/

/-- Flags shown in F1 2019 (source enum declares `Invalid = -1 .. Red = 4`). -/
inductive Flag where
  | Invalid
  | None
  | Green
  | Blue
  | Yellow
  | Red
deriving DecidableEq

/-- The numeric code the source enum declaration assigns to each flag. -/
def Flag.code : Flag → Int
  | .Invalid => -1
  | .None => 0
  | .Green => 1
  | .Blue => 2
  | .Yellow => 3
  | .Red => 4

/-- The match table shared by `impl TryFrom<i8> for Flag` (`src/nineteen.rs`)
and the body of `decode_flag` (`src/nineteen/flag.rs`). -/
def Flag.try_from (value : Int) : Except IoError Flag :=
  match value with
  | -1 => .ok .Invalid
  | 0 => .ok .None
  | 1 => .ok .Green
  | 2 => .ok .Blue
  | 3 => .ok .Yellow
  | 4 => .ok .Red
  | _ => .error ⟨.invalidData, "Failed to decode flag."⟩

/-- Decode a flag that can be shown to cars (`src/nineteen/flag.rs` lines
8-20): read an `i8`, then apply the match table. -/
def decode_flag : Dec Flag := do
  let value ← get_i8
  liftE (Flag.try_from value)

/-! ## Packet type (`src/nineteen/header.rs` lines 47-50 and 100-113)

The enum in the source currently declares only `Telemetry = 6` and
`Status = 7` (its doc comment marks it for removal once all packets are
migrated to the unified packet format). -/

/-- The different types of packets published by F1 2019, as declared in the
source: `Telemetry = 6`, `Status = 7`. -/
inductive PacketType where
  | Telemetry
  | Status
deriving DecidableEq

/-- The numeric code the source enum declaration assigns to each type. -/
def PacketType.code : PacketType → Nat
  | .Telemetry => 6
  | .Status => 7

/-- The `impl TryFrom<u8> for PacketType` (`src/nineteen/header.rs` lines
100-113): only 6 and 7 are accepted. -/
def PacketType.try_from (value : Nat) : Except IoError PacketType :=
  match value with
  | 6 => .ok .Telemetry
  | 7 => .ok .Status
  | _ => .error ⟨.invalidData, "Failed to decode packet id."⟩

/-! ## Headers (`src/packet/header.rs`, `src/nineteen/header.rs`) -/

/-- Version number of the game (`src/packet/header.rs`). -/
structure GameVersion where
  major : Nat
  minor : Nat

/-- Header prefixing each packet in the unified packet format
(`src/packet/header.rs`). `session_time` is a `Duration` built with
`Duration::from_secs_f32`; it is kept as the raw `f32` bits here. -/
structure Header where
  game_version : Option GameVersion
  session_uid : Nat
  session_time : Nat
  frame_identifier : Nat
  player_car_index : Nat

/-- Decode the header prefixing packets sent by F1 2019
(`src/nineteen/header.rs` lines 17-37). Consumes 23 bytes; performs no
validation of any field. -/
def decode_header : Dec Header := do
  let _ ← get_u16_le
  let major ← get_u8
  let minor ← get_u8
  let game_version := some (GameVersion.mk major minor)
  let _ ← get_u8
  let _ ← get_u8
  let session_uid ← get_u64_le
  let session_time ← get_f32_le
  let frame_identifier ← get_u32_le
  let player_car_index ← get_u8
  pure (Header.mk game_version session_uid session_time frame_identifier
    player_car_index)

/-- The packet header at the beginning of each UDP packet, old representation
(`src/nineteen/header.rs` lines 60-98). -/
structure PacketHeader where
  packet_format : Nat
  game_major_version : Nat
  game_minor_version : Nat
  packet_version : Nat
  packet_type : PacketType
  session_uid : Nat
  session_time : Nat
  frame_identifier : Nat
  player_car_index : Nat

/-- The buffer size `PacketHeader` declares (`src/nineteen/header.rs` lines
116-118). -/
def PacketHeader.buffer_size : Nat := 23

/-- The `FromBytes::decode` implementation for `PacketHeader`
(`src/nineteen/header.rs` lines 120-132). Note that it runs
`PacketType::try_from` on the packet-type byte, which in the present source
accepts only the values 6 and 7. -/
def PacketHeader.decode : Dec PacketHeader := do
  let packet_format ← get_u16_le
  let game_major_version ← get_u8
  let game_minor_version ← get_u8
  let packet_version ← get_u8
  let ptype_raw ← get_u8
  let packet_type ← liftE (PacketType.try_from ptype_raw)
  let session_uid ← get_u64_le
  let session_time ← get_f32_le
  let frame_identifier ← get_u32_le
  let player_car_index ← get_u8
  pure (PacketHeader.mk packet_format game_major_version game_minor_version
    packet_version packet_type session_uid session_time frame_identifier
    player_car_index)

/-! ## The `FromBytes` length gates

`src/packet.rs` lines 26-44 give the default `from_bytes` of the trait
`packet::FromBytes`: it errors with `ErrorKind::UnexpectedEof` unless the
remaining buffer size is exactly `buffer_size()`, then calls `decode`.

The module `crate::from_bytes`, imported by `src/nineteen.rs` and
`src/nineteen/header.rs`, and the function `crate::packet::ensure_packet_size`,
imported by the motion/setup/status/telemetry decoders, are not present under
`src/`; they are modelled from the spec below. -/

/-- Default `from_bytes` of `packet::FromBytes` (`src/packet.rs` lines
26-44): the remaining buffer size must match `buffer_size()` exactly. -/
def from_bytes_eq (buffer_size : Nat) (decode : Dec α) : Dec α := fun c =>
  let expected_size := buffer_size
  let packet_size := c.remaining
  if packet_size ≠ expected_size then
    .err ⟨.unexpectedEof,
      "Packet is expected to have a size of " ++ toString expected_size ++
        " bytes, but was " ++ toString packet_size ++ "."⟩ c
  else
    decode c

/-- Modelled from the spec: the default `from_bytes` of the missing module
`crate::from_bytes` (imported by `src/nineteen.rs`). Spec section 4.5 step 4
and the codec documentation (`src/codec.rs` lines 29-33) describe it: if the
buffer holds fewer bytes than the declared size, fail with the
"need more data" error (`ErrorKind::UnexpectedEof`), consuming nothing;
otherwise run `decode`. -/
def from_bytes_min (buffer_size : Nat) (decode : Dec α) : Dec α := fun c =>
  if c.remaining < buffer_size then
    .err ⟨.unexpectedEof, "Packet is smaller than its expected size."⟩ c
  else
    decode c

/-- Modelled from the spec: the missing `crate::packet::ensure_packet_size`
(called first by the motion/setup/status/telemetry decoders). Spec section
4.4: each decoder receives a cursor that must contain at least the declared
fixed size for its packet type; the check fails with the "need more data"
error (`ErrorKind::UnexpectedEof`) and consumes nothing. -/
def ensure_packet_size (expected : Nat) : Dec Unit := fun c =>
  if c.remaining < expected then
    .err ⟨.unexpectedEof, "Packet is smaller than its expected size."⟩ c
  else
    .ok () c

/-! ## Lap packets (`src/nineteen/lap.rs`) -/

/-- The status each driver can have (source codes 0-4). -/
inductive DriverStatus where
  | InGarage
  | FlyingLap
  | InLap
  | OutLap
  | OnTrack
deriving DecidableEq

/-- The numeric code the source enum declaration assigns. -/
def DriverStatus.code : DriverStatus → Nat
  | .InGarage => 0
  | .FlyingLap => 1
  | .InLap => 2
  | .OutLap => 3
  | .OnTrack => 4

/-- `impl TryFrom<u8> for DriverStatus` (`src/nineteen/lap.rs` lines 126-142). -/
def DriverStatus.try_from (value : Nat) : Except IoError DriverStatus :=
  match value with
  | 0 => .ok .InGarage
  | 1 => .ok .FlyingLap
  | 2 => .ok .InLap
  | 3 => .ok .OutLap
  | 4 => .ok .OnTrack
  | _ => .error ⟨.invalidData, "Failed to decode driver status."⟩

/-- The status of a driver during a pit stop (source codes 0-2). -/
inductive PitStatus where
  | None
  | Pitting
  | InPits
deriving DecidableEq

/-- The numeric code the source enum declaration assigns. -/
def PitStatus.code : PitStatus → Nat
  | .None => 0
  | .Pitting => 1
  | .InPits => 2

/-- `impl TryFrom<u8> for PitStatus` (`src/nineteen/lap.rs` lines 144-158). -/
def PitStatus.try_from (value : Nat) : Except IoError PitStatus :=
  match value with
  | 0 => .ok .None
  | 1 => .ok .Pitting
  | 2 => .ok .InPits
  | _ => .error ⟨.invalidData, "Failed to decode pit status."⟩

/-- The status of a driver's results (source codes 0-6). -/
inductive ResultStatus where
  | Invalid
  | Inactive
  | Active
  | Finished
  | Disqualified
  | NotClassified
  | Retired
deriving DecidableEq

/-- The numeric code the source enum declaration assigns. -/
def ResultStatus.code : ResultStatus → Nat
  | .Invalid => 0
  | .Inactive => 1
  | .Active => 2
  | .Finished => 3
  | .Disqualified => 4
  | .NotClassified => 5
  | .Retired => 6

/-- `impl TryFrom<u8> for ResultStatus` (`src/nineteen/lap.rs` lines 160-178). -/
def ResultStatus.try_from (value : Nat) : Except IoError ResultStatus :=
  match value with
  | 0 => .ok .Invalid
  | 1 => .ok .Inactive
  | 2 => .ok .Active
  | 3 => .ok .Finished
  | 4 => .ok .Disqualified
  | 5 => .ok .NotClassified
  | 6 => .ok .Retired
  | _ => .error ⟨.invalidData, "Failed to decode result status."⟩

/-- The three sectors of a race track (source codes 0-2). -/
inductive Sector where
  | First
  | Second
  | Third
deriving DecidableEq

/-- The numeric code the source enum declaration assigns. -/
def Sector.code : Sector → Nat
  | .First => 0
  | .Second => 1
  | .Third => 2

/-- `impl TryFrom<u8> for Sector` (`src/nineteen/lap.rs` lines 180-194). -/
def Sector.try_from (value : Nat) : Except IoError Sector :=
  match value with
  | 0 => .ok .First
  | 1 => .ok .Second
  | 2 => .ok .Third
  | _ => .error ⟨.invalidData, "Failed to decode sector."⟩

/-- Data about a driver and their lap (`src/nineteen/lap.rs` lines 58-111).
Durations and distances are `f32` on the wire, kept as raw bits. -/
structure Lap where
  last_lap_time : Nat
  current_lap_time : Nat
  best_lap_time : Nat
  sector1_time : Nat
  sector2_time : Nat
  lap_distance : Nat
  total_distance : Nat
  safety_car_delta : Nat
  position : Nat
  current_lap_number : Nat
  pit_status : PitStatus
  sector : Sector
  is_lap_valid : Bool
  penalties : Nat
  grid_position : Nat
  driver_status : DriverStatus
  result_status : ResultStatus

/-- A packet with details about each driver's current lap. -/
structure LapPacket where
  header : PacketHeader
  laps : List Lap

/-- The body of the per-car loop in `LapPacket::decode` (`src/nineteen/lap.rs`
lines 209-227): one `Lap` struct literal read field by field, in wire order.
In particular `is_lap_valid` is `cursor.get_u8() > 1`. -/
def decode_lap_record : Dec Lap := do
  let last_lap_time ← get_f32_le
  let current_lap_time ← get_f32_le
  let best_lap_time ← get_f32_le
  let sector1_time ← get_f32_le
  let sector2_time ← get_f32_le
  let lap_distance ← get_f32_le
  let total_distance ← get_f32_le
  let safety_car_delta ← get_f32_le
  let position ← get_u8
  let current_lap_number ← get_u8
  let pit_status_raw ← get_u8
  let pit_status ← liftE (PitStatus.try_from pit_status_raw)
  let sector_raw ← get_u8
  let sector ← liftE (Sector.try_from sector_raw)
  let valid_raw ← get_u8
  let penalties ← get_u8
  let grid_position ← get_u8
  let driver_status_raw ← get_u8
  let driver_status ← liftE (DriverStatus.try_from driver_status_raw)
  let result_status_raw ← get_u8
  let result_status ← liftE (ResultStatus.try_from result_status_raw)
  pure (Lap.mk last_lap_time current_lap_time best_lap_time sector1_time
    sector2_time lap_distance total_distance safety_car_delta position
    current_lap_number pit_status sector (decide (1 < valid_raw)) penalties
    grid_position driver_status result_status)

/-- The shared shape of every `for _ in 0..n { vec.push(...?) }` decoding
loop in the source: run the loop body `n` times, collecting the results in
order. -/
def decode_records {α : Type} (rec : Dec α) : Nat → Dec (List α)
  | 0 => pure []
  | n + 1 => do
    let x ← rec
    let rest ← decode_records rec n
    pure (x :: rest)

/-- The `for _ in 0..n` loop of `LapPacket::decode`, pushing one record per
iteration. -/
def decode_lap_records : Nat → Dec (List Lap) :=
  decode_records decode_lap_record

/-- `LapPacket::buffer_size` (`src/nineteen/lap.rs` lines 197-199). -/
def LapPacket.buffer_size : Nat := 843

/-- `LapPacket::decode` (`src/nineteen/lap.rs` lines 201-231): header, then
exactly 20 lap records. -/
def LapPacket.decode : Dec LapPacket := do
  let header ← PacketHeader.decode
  let laps ← decode_lap_records 20
  pure (LapPacket.mk header laps)

/-- `LapPacket::from_bytes`: the default of `packet::FromBytes`
(`src/packet.rs` lines 26-44) at `buffer_size = 843`. -/
def LapPacket.from_bytes : Dec LapPacket :=
  from_bytes_eq LapPacket.buffer_size LapPacket.decode

/-! ## Participants packets (`src/nineteen/participants.rs`) -/

/-- Indicates whether a car is controlled by the AI or a human. -/
inductive Controller where
  | Human
  | AI
deriving DecidableEq

/-- The numeric code the source enum declaration assigns. -/
def Controller.code : Controller → Nat
  | .Human => 0
  | .AI => 1

/-- `impl TryFrom<u8> for Controller` (`src/nineteen/participants.rs` lines
291-304). -/
def Controller.try_from (value : Nat) : Except IoError Controller :=
  match value with
  | 0 => .ok .Human
  | 1 => .ok .AI
  | _ => .error ⟨.invalidData, "Failed to decode controller."⟩

/-- A list of all drivers in F1 2019 (`src/nineteen/participants.rs` lines
18-96); the declared codes are sparse and non-contiguous. -/
inductive Driver where
  | CarlosSainz
  | DaniilKvyat
  | DanielRicciardo
  | KimiRaikkonen
  | LewisHamilton
  | MaxVerstappen
  | NicoHulkenburg
  | KevinMagnussen
  | RomainGrosjean
  | SebastianVettel
  | SergioPerez
  | ValtteriBottas
  | LanceStroll
  | ArronBarnes
  | MartinGiles
  | AlexMurray
  | LucasRoth
  | IgorCorreia
  | SophieLevasseur
  | JonasSchiffer
  | AlainForest
  | JayLetourneau
  | EstoSaari
  | YasarAtiyeh
  | CallistoCalabresi
  | NaotaIzum
  | HowardClarke
  | WilheimKaufmann
  | MarieLaursen
  | FlavioNieves
  | PeterBelousov
  | KlimekMichalski
  | SantiagoMoreno
  | BenjaminCoppens
  | NoahVisser
  | GertWaldmuller
  | JulianQuesada
  | DanielJones
  | ArtemMarkelov
  | TadasukeMakino
  | SeanGelael
  | NyckDeVries
  | JackAitken
  | GeorgeRussell
  | MaximilianGunther
  | NireiFukuzumi
  | LucaGhiotto
  | LandoNorris
  | SergioSetteCamara
  | LouisDeletraz
  | AntonioFuoco
  | CharlesLeclerc
  | PierreGasly
  | AlexanderAlbon
  | NicholasLatifi
  | DorianBoccolacci
  | NikoKari
  | RobertoMerhi
  | ArjunMaini
  | AlessioLorandi
  | RubenMeijer
  | RashidNair
  | JackTremblay
  | AntonioGiovinazzi
  | RobertKubica
  | NobuharuMatsushita
  | NikitaMazepin
  | GuanyaZhou
  | MickSchumacher
  | CallumIlott
  | JuanManuelCorrea
  | JordanKing
  | MahaveerRaghunathan
  | TatianaCalderon
  | AnthoineHubert
  | GuilianoAlesi
  | RalphBoschung
deriving DecidableEq

/-- The numeric code the source enum declaration assigns to each driver. -/
def Driver.code : Driver → Nat
  | .CarlosSainz => 0
  | .DaniilKvyat => 1
  | .DanielRicciardo => 2
  | .KimiRaikkonen => 6
  | .LewisHamilton => 7
  | .MaxVerstappen => 9
  | .NicoHulkenburg => 10
  | .KevinMagnussen => 11
  | .RomainGrosjean => 12
  | .SebastianVettel => 13
  | .SergioPerez => 14
  | .ValtteriBottas => 15
  | .LanceStroll => 19
  | .ArronBarnes => 20
  | .MartinGiles => 21
  | .AlexMurray => 22
  | .LucasRoth => 23
  | .IgorCorreia => 24
  | .SophieLevasseur => 25
  | .JonasSchiffer => 26
  | .AlainForest => 27
  | .JayLetourneau => 28
  | .EstoSaari => 29
  | .YasarAtiyeh => 30
  | .CallistoCalabresi => 31
  | .NaotaIzum => 32
  | .HowardClarke => 33
  | .WilheimKaufmann => 34
  | .MarieLaursen => 35
  | .FlavioNieves => 36
  | .PeterBelousov => 37
  | .KlimekMichalski => 38
  | .SantiagoMoreno => 39
  | .BenjaminCoppens => 40
  | .NoahVisser => 41
  | .GertWaldmuller => 42
  | .JulianQuesada => 43
  | .DanielJones => 44
  | .ArtemMarkelov => 45
  | .TadasukeMakino => 46
  | .SeanGelael => 47
  | .NyckDeVries => 48
  | .JackAitken => 49
  | .GeorgeRussell => 50
  | .MaximilianGunther => 51
  | .NireiFukuzumi => 52
  | .LucaGhiotto => 53
  | .LandoNorris => 54
  | .SergioSetteCamara => 55
  | .LouisDeletraz => 56
  | .AntonioFuoco => 57
  | .CharlesLeclerc => 58
  | .PierreGasly => 59
  | .AlexanderAlbon => 62
  | .NicholasLatifi => 63
  | .DorianBoccolacci => 64
  | .NikoKari => 65
  | .RobertoMerhi => 66
  | .ArjunMaini => 67
  | .AlessioLorandi => 68
  | .RubenMeijer => 69
  | .RashidNair => 70
  | .JackTremblay => 71
  | .AntonioGiovinazzi => 74
  | .RobertKubica => 75
  | .NobuharuMatsushita => 78
  | .NikitaMazepin => 79
  | .GuanyaZhou => 80
  | .MickSchumacher => 81
  | .CallumIlott => 82
  | .JuanManuelCorrea => 83
  | .JordanKing => 84
  | .MahaveerRaghunathan => 85
  | .TatianaCalderon => 86
  | .AnthoineHubert => 87
  | .GuilianoAlesi => 88
  | .RalphBoschung => 89

/-- `impl TryFrom<u8> for Driver` (`src/nineteen/participants.rs` lines
306-394). -/
def Driver.try_from (value : Nat) : Except IoError Driver :=
  match value with
  | 0 => .ok .CarlosSainz
  | 1 => .ok .DaniilKvyat
  | 2 => .ok .DanielRicciardo
  | 6 => .ok .KimiRaikkonen
  | 7 => .ok .LewisHamilton
  | 9 => .ok .MaxVerstappen
  | 10 => .ok .NicoHulkenburg
  | 11 => .ok .KevinMagnussen
  | 12 => .ok .RomainGrosjean
  | 13 => .ok .SebastianVettel
  | 14 => .ok .SergioPerez
  | 15 => .ok .ValtteriBottas
  | 19 => .ok .LanceStroll
  | 20 => .ok .ArronBarnes
  | 21 => .ok .MartinGiles
  | 22 => .ok .AlexMurray
  | 23 => .ok .LucasRoth
  | 24 => .ok .IgorCorreia
  | 25 => .ok .SophieLevasseur
  | 26 => .ok .JonasSchiffer
  | 27 => .ok .AlainForest
  | 28 => .ok .JayLetourneau
  | 29 => .ok .EstoSaari
  | 30 => .ok .YasarAtiyeh
  | 31 => .ok .CallistoCalabresi
  | 32 => .ok .NaotaIzum
  | 33 => .ok .HowardClarke
  | 34 => .ok .WilheimKaufmann
  | 35 => .ok .MarieLaursen
  | 36 => .ok .FlavioNieves
  | 37 => .ok .PeterBelousov
  | 38 => .ok .KlimekMichalski
  | 39 => .ok .SantiagoMoreno
  | 40 => .ok .BenjaminCoppens
  | 41 => .ok .NoahVisser
  | 42 => .ok .GertWaldmuller
  | 43 => .ok .JulianQuesada
  | 44 => .ok .DanielJones
  | 45 => .ok .ArtemMarkelov
  | 46 => .ok .TadasukeMakino
  | 47 => .ok .SeanGelael
  | 48 => .ok .NyckDeVries
  | 49 => .ok .JackAitken
  | 50 => .ok .GeorgeRussell
  | 51 => .ok .MaximilianGunther
  | 52 => .ok .NireiFukuzumi
  | 53 => .ok .LucaGhiotto
  | 54 => .ok .LandoNorris
  | 55 => .ok .SergioSetteCamara
  | 56 => .ok .LouisDeletraz
  | 57 => .ok .AntonioFuoco
  | 58 => .ok .CharlesLeclerc
  | 59 => .ok .PierreGasly
  | 62 => .ok .AlexanderAlbon
  | 63 => .ok .NicholasLatifi
  | 64 => .ok .DorianBoccolacci
  | 65 => .ok .NikoKari
  | 66 => .ok .RobertoMerhi
  | 67 => .ok .ArjunMaini
  | 68 => .ok .AlessioLorandi
  | 69 => .ok .RubenMeijer
  | 70 => .ok .RashidNair
  | 71 => .ok .JackTremblay
  | 74 => .ok .AntonioGiovinazzi
  | 75 => .ok .RobertKubica
  | 78 => .ok .NobuharuMatsushita
  | 79 => .ok .NikitaMazepin
  | 80 => .ok .GuanyaZhou
  | 81 => .ok .MickSchumacher
  | 82 => .ok .CallumIlott
  | 83 => .ok .JuanManuelCorrea
  | 84 => .ok .JordanKing
  | 85 => .ok .MahaveerRaghunathan
  | 86 => .ok .TatianaCalderon
  | 87 => .ok .AnthoineHubert
  | 88 => .ok .GuilianoAlesi
  | 89 => .ok .RalphBoschung
  | _ => .error ⟨.invalidData, "Failed to decode driver."⟩

/-- A list of all teams in F1 2019 (`src/nineteen/participants.rs` lines
100-154); the declared codes are sparse and non-contiguous. -/
inductive Team where
  | Mercedes
  | Ferrari
  | RedBullRacing
  | Williams
  | RacingPoint
  | Renault
  | ToroRosso
  | Haas
  | McLaren
  | AlfaRomeo
  | McLaren1988
  | McLaren1991
  | Williams1992
  | Ferrari1995
  | Williams1996
  | McLaren1998
  | Ferrari2002
  | Ferrari2004
  | Renault2006
  | Ferrari2007
  | RedBull2010
  | Ferrari1976
  | ARTGrandPrix
  | CamposVexatecRacing
  | Carlin
  | CharouzRacingSystem
  | DAMS
  | RussianTime
  | MPMotorsport
  | Pertamina
  | McLaren1990
  | Trident
  | BWTArden
  | McLaren1976
  | Lotus1972
  | Ferrari1979
  | McLaren1982
  | Williams2003
  | Brawn2009
  | Lotus1978
  | ArtGP2019
  | Campos2019
  | Carlin2019
  | SauberJuniorCharouz2019
  | Dams2019
  | UniVirtuosi2019
  | MPMotorsport2019
  | Prema2019
  | Trident2019
  | Arden2019
  | Ferrari1990
  | McLaren2010
  | Ferrari2010
deriving DecidableEq

/-- The numeric code the source enum declaration assigns to each team. -/
def Team.code : Team → Nat
  | .Mercedes => 0
  | .Ferrari => 1
  | .RedBullRacing => 2
  | .Williams => 3
  | .RacingPoint => 4
  | .Renault => 5
  | .ToroRosso => 6
  | .Haas => 7
  | .McLaren => 8
  | .AlfaRomeo => 9
  | .McLaren1988 => 10
  | .McLaren1991 => 11
  | .Williams1992 => 12
  | .Ferrari1995 => 13
  | .Williams1996 => 14
  | .McLaren1998 => 15
  | .Ferrari2002 => 16
  | .Ferrari2004 => 17
  | .Renault2006 => 18
  | .Ferrari2007 => 19
  | .RedBull2010 => 21
  | .Ferrari1976 => 22
  | .ARTGrandPrix => 23
  | .CamposVexatecRacing => 24
  | .Carlin => 25
  | .CharouzRacingSystem => 26
  | .DAMS => 27
  | .RussianTime => 28
  | .MPMotorsport => 29
  | .Pertamina => 30
  | .McLaren1990 => 31
  | .Trident => 32
  | .BWTArden => 33
  | .McLaren1976 => 34
  | .Lotus1972 => 35
  | .Ferrari1979 => 36
  | .McLaren1982 => 37
  | .Williams2003 => 38
  | .Brawn2009 => 39
  | .Lotus1978 => 40
  | .ArtGP2019 => 42
  | .Campos2019 => 43
  | .Carlin2019 => 44
  | .SauberJuniorCharouz2019 => 45
  | .Dams2019 => 46
  | .UniVirtuosi2019 => 47
  | .MPMotorsport2019 => 48
  | .Prema2019 => 49
  | .Trident2019 => 50
  | .Arden2019 => 51
  | .Ferrari1990 => 63
  | .McLaren2010 => 64
  | .Ferrari2010 => 65

/-- `impl TryFrom<u8> for Team` (`src/nineteen/participants.rs` lines
396-457). -/
def Team.try_from (value : Nat) : Except IoError Team :=
  match value with
  | 0 => .ok .Mercedes
  | 1 => .ok .Ferrari
  | 2 => .ok .RedBullRacing
  | 3 => .ok .Williams
  | 4 => .ok .RacingPoint
  | 5 => .ok .Renault
  | 6 => .ok .ToroRosso
  | 7 => .ok .Haas
  | 8 => .ok .McLaren
  | 9 => .ok .AlfaRomeo
  | 10 => .ok .McLaren1988
  | 11 => .ok .McLaren1991
  | 12 => .ok .Williams1992
  | 13 => .ok .Ferrari1995
  | 14 => .ok .Williams1996
  | 15 => .ok .McLaren1998
  | 16 => .ok .Ferrari2002
  | 17 => .ok .Ferrari2004
  | 18 => .ok .Renault2006
  | 19 => .ok .Ferrari2007
  | 21 => .ok .RedBull2010
  | 22 => .ok .Ferrari1976
  | 23 => .ok .ARTGrandPrix
  | 24 => .ok .CamposVexatecRacing
  | 25 => .ok .Carlin
  | 26 => .ok .CharouzRacingSystem
  | 27 => .ok .DAMS
  | 28 => .ok .RussianTime
  | 29 => .ok .MPMotorsport
  | 30 => .ok .Pertamina
  | 31 => .ok .McLaren1990
  | 32 => .ok .Trident
  | 33 => .ok .BWTArden
  | 34 => .ok .McLaren1976
  | 35 => .ok .Lotus1972
  | 36 => .ok .Ferrari1979
  | 37 => .ok .McLaren1982
  | 38 => .ok .Williams2003
  | 39 => .ok .Brawn2009
  | 40 => .ok .Lotus1978
  | 42 => .ok .ArtGP2019
  | 43 => .ok .Campos2019
  | 44 => .ok .Carlin2019
  | 45 => .ok .SauberJuniorCharouz2019
  | 46 => .ok .Dams2019
  | 47 => .ok .UniVirtuosi2019
  | 48 => .ok .MPMotorsport2019
  | 49 => .ok .Prema2019
  | 50 => .ok .Trident2019
  | 51 => .ok .Arden2019
  | 63 => .ok .Ferrari1990
  | 64 => .ok .McLaren2010
  | 65 => .ok .Ferrari2010
  | _ => .error ⟨.invalidData, "Failed to decode team."⟩

/-- A list of all nationalities in F1 2019 (`src/nineteen/participants.rs`
lines 158-245); declared codes run 1 to 86 with no gaps. -/
inductive Nationality where
  | American
  | Argentinean
  | Australian
  | Austrian
  | Azerbaijani
  | Bahraini
  | Belgian
  | Bolivian
  | Brazilian
  | British
  | Bulgarian
  | Cameroonian
  | Canadian
  | Chilean
  | Chinese
  | Colombian
  | CostaRican
  | Croatian
  | Cypriot
  | Czech
  | Danish
  | Dutch
  | Ecuadorian
  | English
  | Emirian
  | Estonian
  | Finnish
  | French
  | German
  | Ghanaian
  | Greek
  | Guatemalan
  | Honduran
  | HongKonger
  | Hungarian
  | Icelander
  | Indian
  | Indonesian
  | Irish
  | Israeli
  | Italian
  | Jamaican
  | Japanese
  | Jordanian
  | Kuwaiti
  | Latvian
  | Lebanese
  | Lithuanian
  | Luxembourger
  | Malaysian
  | Maltese
  | Mexican
  | Monegasque
  | NewZealander
  | Nicaraguan
  | NorthKorean
  | NorthernIrish
  | Norwegian
  | Omani
  | Pakistani
  | Panamanian
  | Paraguayan
  | Peruvian
  | Polish
  | Portuguese
  | Qatari
  | Romanian
  | Russian
  | Salvadoran
  | Saudi
  | Scottish
  | Serbian
  | Singaporean
  | Slovakian
  | Slovenian
  | SouthKorean
  | SouthAfrican
  | Spanish
  | Swedish
  | Swiss
  | Thai
  | Turkish
  | Uruguayan
  | Ukrainian
  | Venezuelan
  | Welsh
deriving DecidableEq

/-- The numeric code the source enum declaration assigns to each
nationality. -/
def Nationality.code : Nationality → Nat
  | .American => 1
  | .Argentinean => 2
  | .Australian => 3
  | .Austrian => 4
  | .Azerbaijani => 5
  | .Bahraini => 6
  | .Belgian => 7
  | .Bolivian => 8
  | .Brazilian => 9
  | .British => 10
  | .Bulgarian => 11
  | .Cameroonian => 12
  | .Canadian => 13
  | .Chilean => 14
  | .Chinese => 15
  | .Colombian => 16
  | .CostaRican => 17
  | .Croatian => 18
  | .Cypriot => 19
  | .Czech => 20
  | .Danish => 21
  | .Dutch => 22
  | .Ecuadorian => 23
  | .English => 24
  | .Emirian => 25
  | .Estonian => 26
  | .Finnish => 27
  | .French => 28
  | .German => 29
  | .Ghanaian => 30
  | .Greek => 31
  | .Guatemalan => 32
  | .Honduran => 33
  | .HongKonger => 34
  | .Hungarian => 35
  | .Icelander => 36
  | .Indian => 37
  | .Indonesian => 38
  | .Irish => 39
  | .Israeli => 40
  | .Italian => 41
  | .Jamaican => 42
  | .Japanese => 43
  | .Jordanian => 44
  | .Kuwaiti => 45
  | .Latvian => 46
  | .Lebanese => 47
  | .Lithuanian => 48
  | .Luxembourger => 49
  | .Malaysian => 50
  | .Maltese => 51
  | .Mexican => 52
  | .Monegasque => 53
  | .NewZealander => 54
  | .Nicaraguan => 55
  | .NorthKorean => 56
  | .NorthernIrish => 57
  | .Norwegian => 58
  | .Omani => 59
  | .Pakistani => 60
  | .Panamanian => 61
  | .Paraguayan => 62
  | .Peruvian => 63
  | .Polish => 64
  | .Portuguese => 65
  | .Qatari => 66
  | .Romanian => 67
  | .Russian => 68
  | .Salvadoran => 69
  | .Saudi => 70
  | .Scottish => 71
  | .Serbian => 72
  | .Singaporean => 73
  | .Slovakian => 74
  | .Slovenian => 75
  | .SouthKorean => 76
  | .SouthAfrican => 77
  | .Spanish => 78
  | .Swedish => 79
  | .Swiss => 80
  | .Thai => 81
  | .Turkish => 82
  | .Uruguayan => 83
  | .Ukrainian => 84
  | .Venezuelan => 85
  | .Welsh => 86

/-- `impl TryFrom<u8> for Nationality` (`src/nineteen/participants.rs` lines
459-556). -/
def Nationality.try_from (value : Nat) : Except IoError Nationality :=
  match value with
  | 1 => .ok .American
  | 2 => .ok .Argentinean
  | 3 => .ok .Australian
  | 4 => .ok .Austrian
  | 5 => .ok .Azerbaijani
  | 6 => .ok .Bahraini
  | 7 => .ok .Belgian
  | 8 => .ok .Bolivian
  | 9 => .ok .Brazilian
  | 10 => .ok .British
  | 11 => .ok .Bulgarian
  | 12 => .ok .Cameroonian
  | 13 => .ok .Canadian
  | 14 => .ok .Chilean
  | 15 => .ok .Chinese
  | 16 => .ok .Colombian
  | 17 => .ok .CostaRican
  | 18 => .ok .Croatian
  | 19 => .ok .Cypriot
  | 20 => .ok .Czech
  | 21 => .ok .Danish
  | 22 => .ok .Dutch
  | 23 => .ok .Ecuadorian
  | 24 => .ok .English
  | 25 => .ok .Emirian
  | 26 => .ok .Estonian
  | 27 => .ok .Finnish
  | 28 => .ok .French
  | 29 => .ok .German
  | 30 => .ok .Ghanaian
  | 31 => .ok .Greek
  | 32 => .ok .Guatemalan
  | 33 => .ok .Honduran
  | 34 => .ok .HongKonger
  | 35 => .ok .Hungarian
  | 36 => .ok .Icelander
  | 37 => .ok .Indian
  | 38 => .ok .Indonesian
  | 39 => .ok .Irish
  | 40 => .ok .Israeli
  | 41 => .ok .Italian
  | 42 => .ok .Jamaican
  | 43 => .ok .Japanese
  | 44 => .ok .Jordanian
  | 45 => .ok .Kuwaiti
  | 46 => .ok .Latvian
  | 47 => .ok .Lebanese
  | 48 => .ok .Lithuanian
  | 49 => .ok .Luxembourger
  | 50 => .ok .Malaysian
  | 51 => .ok .Maltese
  | 52 => .ok .Mexican
  | 53 => .ok .Monegasque
  | 54 => .ok .NewZealander
  | 55 => .ok .Nicaraguan
  | 56 => .ok .NorthKorean
  | 57 => .ok .NorthernIrish
  | 58 => .ok .Norwegian
  | 59 => .ok .Omani
  | 60 => .ok .Pakistani
  | 61 => .ok .Panamanian
  | 62 => .ok .Paraguayan
  | 63 => .ok .Peruvian
  | 64 => .ok .Polish
  | 65 => .ok .Portuguese
  | 66 => .ok .Qatari
  | 67 => .ok .Romanian
  | 68 => .ok .Russian
  | 69 => .ok .Salvadoran
  | 70 => .ok .Saudi
  | 71 => .ok .Scottish
  | 72 => .ok .Serbian
  | 73 => .ok .Singaporean
  | 74 => .ok .Slovakian
  | 75 => .ok .Slovenian
  | 76 => .ok .SouthKorean
  | 77 => .ok .SouthAfrican
  | 78 => .ok .Spanish
  | 79 => .ok .Swedish
  | 80 => .ok .Swiss
  | 81 => .ok .Thai
  | 82 => .ok .Turkish
  | 83 => .ok .Uruguayan
  | 84 => .ok .Ukrainian
  | 85 => .ok .Venezuelan
  | 86 => .ok .Welsh
  | _ => .error ⟨.invalidData, "Failed to decode nationality."⟩

/-- A participant's UDP broadcast setting (source codes 0-1). -/
inductive UdpSetting where
  | Restricted
  | Public
deriving DecidableEq

/-- The numeric code the source enum declaration assigns. -/
def UdpSetting.code : UdpSetting → Nat
  | .Restricted => 0
  | .Public => 1

/-- `impl TryFrom<u8> for UdpSetting` (`src/nineteen/participants.rs` lines
558-571). -/
def UdpSetting.try_from (value : Nat) : Except IoError UdpSetting :=
  match value with
  | 0 => .ok .Restricted
  | 1 => .ok .Public
  | _ => .error ⟨.invalidData, "Failed to decode UDP setting."⟩

/-- A participant in an F1 2019 session (`src/nineteen/participants.rs`
lines 259-281). The Rust `String` name is kept as the list of its bytes. -/
structure Participant where
  controller : Controller
  driver : Driver
  team : Team
  race_number : Nat
  nationality : Nationality
  name : List Nat
  telemetry : UdpSetting

/-- A packet with the list of participants. -/
structure ParticipantsPacket where
  header : PacketHeader
  participants : List Participant

/-- The loop body of `ParticipantsPacket::decode_name` with its remaining
iteration budget: read one byte per iteration, stop at the first NUL (which
is consumed but not returned), otherwise append the byte. The source's
`for _ in 0..40` loop starts at `decode_name_loop 40`. -/
def decode_name_loop : Nat → Dec (List Nat)
  | 0 => pure []
  | n + 1 => do
    let letter ← get_u8
    if letter = 0 then
      pure []
    else
      let rest ← decode_name_loop n
      pure (letter :: rest)

/-- `ParticipantsPacket::decode_name` (`src/nineteen/participants.rs` lines
579-593): read up to 40 bytes, stopping at (and consuming) the first NUL.
The bytes after the NUL are left unread: the loop breaks without skipping
the rest of the 40-byte field. -/
def ParticipantsPacket.decode_name : Dec (List Nat) :=
  decode_name_loop 40

/-- The per-participant loop body of `ParticipantsPacket::decode`
(`src/nineteen/participants.rs` lines 611-619). -/
def decode_participant : Dec Participant := do
  let controller_raw ← get_u8
  let controller ← liftE (Controller.try_from controller_raw)
  let driver_raw ← get_u8
  let driver ← liftE (Driver.try_from driver_raw)
  let team_raw ← get_u8
  let team ← liftE (Team.try_from team_raw)
  let race_number ← get_u8
  let nationality_raw ← get_u8
  let nationality ← liftE (Nationality.try_from nationality_raw)
  let name ← ParticipantsPacket.decode_name
  let telemetry_raw ← get_u8
  let telemetry ← liftE (UdpSetting.try_from telemetry_raw)
  pure (Participant.mk controller driver team race_number nationality name
    telemetry)

/-- The `for _ in 0..participants_count` loop of
`ParticipantsPacket::decode`. -/
def decode_participant_records : Nat → Dec (List Participant) :=
  decode_records decode_participant

/-- `ParticipantsPacket::buffer_size` (`src/nineteen/participants.rs` lines
597-599). -/
def ParticipantsPacket.buffer_size : Nat := 1104

/-- `ParticipantsPacket::decode` (`src/nineteen/participants.rs` lines
601-627): header, a participant-count byte, then exactly
`participants_count` records (not a fixed 20). -/
def ParticipantsPacket.decode : Dec ParticipantsPacket := do
  let header ← PacketHeader.decode
  let participants_count ← get_u8
  let participants ← decode_participant_records participants_count
  pure (ParticipantsPacket.mk header participants)

/-- `ParticipantsPacket::from_bytes`: the default of `packet::FromBytes`
(`src/packet.rs` lines 26-44) at `buffer_size = 1104`. -/
def ParticipantsPacket.from_bytes : Dec ParticipantsPacket :=
  from_bytes_eq ParticipantsPacket.buffer_size ParticipantsPacket.decode

/-! ## Geometry primitives (`src/types.rs`) -/

/-- Property on each corner of a car. -/
structure CornerProperty (T : Type) where
  front_left : T
  front_right : T
  rear_left : T
  rear_right : T

/-- Property in a three-dimensional world. -/
structure Property3D (T : Type) where
  x : T
  y : T
  z : T

/-! ## Telemetry packets (`src/packet/telemetry.rs`,
`src/nineteen/telemetry.rs`) -/

/-- The `bitflags! Button` bit field (`src/packet/telemetry.rs` lines 13-36):
a `u32` whose bits 0 to 14 are the fifteen named buttons. A value is the set
of bits it carries. -/
structure Button where
  bits : Nat

namespace Button

def NONE : Button := ⟨0x0⟩
def CROSS_OR_A : Button := ⟨0x0001⟩
def TRIANGLE_OR_Y : Button := ⟨0x0002⟩
def CIRCLE_OR_B : Button := ⟨0x0004⟩
def SQUARE_OR_X : Button := ⟨0x0008⟩
def DPAD_LEFT : Button := ⟨0x0010⟩
def DPAD_RIGHT : Button := ⟨0x0020⟩
def DPAD_UP : Button := ⟨0x0040⟩
def DPAD_DOWN : Button := ⟨0x0080⟩
def OPTIONS_OR_MENU : Button := ⟨0x0100⟩
def L1_OR_LB : Button := ⟨0x0200⟩
def R1_OR_RB : Button := ⟨0x0400⟩
def L2_OR_LT : Button := ⟨0x0800⟩
def R2_OR_RT : Button := ⟨0x1000⟩
def LEFT_STICK_CLICK : Button := ⟨0x2000⟩
def RIGHT_STICK_CLICK : Button := ⟨0x4000⟩

/-- The union of all declared flags, `Button::all()`: bits 0 to 14. -/
def all : Button := ⟨0x7FFF⟩

/-- `Button::from_bits` as generated by `bitflags` 1.x: `Some` exactly when
no bit outside `all()` is set, returning the bits unchanged. -/
def from_bits (bits : Nat) : Option Button :=
  if bits &&& (0xFFFFFFFF ^^^ all.bits) = 0 then some ⟨bits⟩ else none

end Button

/-- Gears of a Formula One car (`src/packet/telemetry.rs` lines 46-57,
declared codes -1 to 8). -/
inductive Gear where
  | Reverse
  | Neutral
  | First
  | Second
  | Third
  | Fourth
  | Fifth
  | Sixth
  | Seventh
  | Eighth
deriving DecidableEq

/-- The numeric code the source enum declaration assigns to each gear. -/
def Gear.code : Gear → Int
  | .Reverse => -1
  | .Neutral => 0
  | .First => 1
  | .Second => 2
  | .Third => 3
  | .Fourth => 4
  | .Fifth => 5
  | .Sixth => 6
  | .Seventh => 7
  | .Eighth => 8

/-- The match table of `decode_gear` (`src/nineteen/telemetry.rs` lines
54-70), applied to the `i8` read from the cursor. -/
def Gear.try_from (value : Int) : Except IoError Gear :=
  match value with
  | -1 => .ok .Reverse
  | 0 => .ok .Neutral
  | 1 => .ok .First
  | 2 => .ok .Second
  | 3 => .ok .Third
  | 4 => .ok .Fourth
  | 5 => .ok .Fifth
  | 6 => .ok .Sixth
  | 7 => .ok .Seventh
  | 8 => .ok .Eighth
  | _ => .error ⟨.invalidData, "Failed to decode gear."⟩

/-- `decode_gear` (`src/nineteen/telemetry.rs` lines 54-70). -/
def decode_gear : Dec Gear := do
  let value ← get_i8
  liftE (Gear.try_from value)

/-- Surfaces a tyre can touch (`src/packet/telemetry.rs` lines 66-80,
declared codes 0-11). -/
inductive Surface where
  | Tarmac
  | RumbleStrip
  | Concrete
  | Rock
  | Gravel
  | Mud
  | Sand
  | Grass
  | Water
  | Cobblestone
  | Metal
  | Ridged
deriving DecidableEq

/-- The numeric code the source enum declaration assigns to each surface. -/
def Surface.code : Surface → Nat
  | .Tarmac => 0
  | .RumbleStrip => 1
  | .Concrete => 2
  | .Rock => 3
  | .Gravel => 4
  | .Mud => 5
  | .Sand => 6
  | .Grass => 7
  | .Water => 8
  | .Cobblestone => 9
  | .Metal => 10
  | .Ridged => 11

/-- The match table of `decode_surface` (`src/nineteen/telemetry.rs` lines
119-140), applied to the `u8` read from the cursor. -/
def Surface.try_from (value : Nat) : Except IoError Surface :=
  match value with
  | 0 => .ok .Tarmac
  | 1 => .ok .RumbleStrip
  | 2 => .ok .Concrete
  | 3 => .ok .Rock
  | 4 => .ok .Gravel
  | 5 => .ok .Mud
  | 6 => .ok .Sand
  | 7 => .ok .Grass
  | 8 => .ok .Water
  | 9 => .ok .Cobblestone
  | 10 => .ok .Metal
  | 11 => .ok .Ridged
  | _ => .error ⟨.invalidData, "Failed to decode surface."⟩

/-- `decode_surface` (`src/nineteen/telemetry.rs` lines 119-140). -/
def decode_surface : Dec Surface := do
  let value ← get_u8
  liftE (Surface.try_from value)

/-- Telemetry data of one car (`src/packet/telemetry.rs`, struct
`Telemetry`), fields in declaration order, which is the argument order of
the derived `Telemetry::new`. -/
structure Telemetry where
  speed : Nat
  throttle : Nat
  steering : Nat
  brake : Nat
  clutch : Nat
  gear : Gear
  engine_rpm : Nat
  drs : Bool
  rev_lights : Nat
  brake_temperature : CornerProperty Nat
  tyre_surface_temperature : CornerProperty Nat
  tyre_inner_temperature : CornerProperty Nat
  engine_temperature : Nat
  tyre_pressure : CornerProperty Nat
  surface_type : CornerProperty Surface

/-- Packet containing the telemetry of all cars plus the button bit field
(`src/packet/telemetry.rs`, struct `TelemetryPacket`). -/
structure TelemetryPacket where
  header : Header
  telemetry : List Telemetry
  button_status : Button

/-- `decode_brake_temperature` (`src/nineteen/telemetry.rs` lines 72-79). -/
def decode_brake_temperature : Dec (CornerProperty Nat) := do
  let fl ← get_u16_le
  let fr ← get_u16_le
  let rl ← get_u16_le
  let rr ← get_u16_le
  pure (CornerProperty.mk fl fr rl rr)

/-- `decode_tyre_surface_temperature` (`src/nineteen/telemetry.rs` lines
81-88). -/
def decode_tyre_surface_temperature : Dec (CornerProperty Nat) :=
  decode_brake_temperature

/-- `decode_tyre_inner_temperature` (`src/nineteen/telemetry.rs` lines
90-97). -/
def decode_tyre_inner_temperature : Dec (CornerProperty Nat) :=
  decode_brake_temperature

/-- `decode_tyre_pressure` (`src/nineteen/telemetry.rs` lines 99-106). -/
def decode_tyre_pressure : Dec (CornerProperty Nat) := do
  let fl ← get_f32_le
  let fr ← get_f32_le
  let rl ← get_f32_le
  let rr ← get_f32_le
  pure (CornerProperty.mk fl fr rl rr)

/-- `decode_surface_type` (`src/nineteen/telemetry.rs` lines 108-117). -/
def decode_surface_type : Dec (CornerProperty Surface) := do
  let fl ← decode_surface
  let fr ← decode_surface
  let rl ← decode_surface
  let rr ← decode_surface
  pure (CornerProperty.mk fl fr rl rr)

/-- The per-car loop body of `decode_telemetry` (`src/nineteen/telemetry.rs`
lines 27-43): one `Telemetry::new` call with its arguments read in wire
order. -/
def decode_telemetry_record : Dec Telemetry := do
  let speed ← get_u16_le
  let throttle ← get_f32_le
  let steering ← get_f32_le
  let brake ← get_f32_le
  let clutch ← get_u8
  let gear ← decode_gear
  let engine_rpm ← get_u16_le
  let drs_raw ← get_u8
  let rev_lights ← get_u8
  let brake_temperature ← decode_brake_temperature
  let tyre_surface_temperature ← decode_tyre_surface_temperature
  let tyre_inner_temperature ← decode_tyre_inner_temperature
  let engine_temperature ← get_u16_le
  let tyre_pressure ← decode_tyre_pressure
  let surface_type ← decode_surface_type
  pure (Telemetry.mk speed throttle steering brake clutch gear engine_rpm
    (decide (0 < drs_raw)) rev_lights brake_temperature
    tyre_surface_temperature tyre_inner_temperature engine_temperature
    tyre_pressure surface_type)

/-- The `for _ in 0..20` loop of `decode_telemetry`. -/
def decode_telemetry_records : Nat → Dec (List Telemetry) :=
  decode_records decode_telemetry_record

/-- Size of the telemetry packet in bytes (`src/nineteen/telemetry.rs` line
14). -/
def TELEMETRY_PACKET_SIZE : Nat := 1347

/-- The button-word step of `decode_telemetry` (`src/nineteen/telemetry.rs`
lines 46-49): `Button::from_bits` on the trailing `u32`, falling back to
`Button::NONE` when `from_bits` returns `None` (that is, when any bit
outside the fifteen declared buttons is set). -/
def button_status_of (bits : Nat) : Button :=
  match Button.from_bits bits with
  | some button => button
  | none => Button.NONE

/-- `decode_telemetry` (`src/nineteen/telemetry.rs` lines 20-52): size gate,
header, 20 telemetry records, trailing button word. -/
def decode_telemetry : Dec TelemetryPacket := do
  ensure_packet_size TELEMETRY_PACKET_SIZE
  let header ← decode_header
  let telemetry ← decode_telemetry_records 20
  let button_raw ← get_u32_le
  let button_status := button_status_of button_raw
  pure (TelemetryPacket.mk header telemetry button_status)

/-! ## Car status packets (`src/packet/status.rs`, `src/nineteen/status.rs`) -/

/-- Traction control settings (`src/packet/status.rs`). -/
inductive TractionControl where
  | Off
  | Low
  | High

/-- The wire code each traction-control variant is decoded from, read off the
match table of `decode_traction_control` (`src/nineteen/status.rs`). -/
def TractionControl.code : TractionControl → Nat
  | .Off => 0
  | .Low => 1
  | .High => 2

/-- The match table of `decode_traction_control` (`src/nineteen/status.rs`
lines 68-80). -/
def TractionControl.try_from (value : Nat) : Except IoError TractionControl :=
  match value with
  | 0 => .ok .Off
  | 1 => .ok .Low
  | 2 => .ok .High
  | _ => .error ⟨.invalidData, "Failed to decode transaction control."⟩

/-- `decode_traction_control` (`src/nineteen/status.rs` lines 68-80). -/
def decode_traction_control : Dec TractionControl := do
  let value ← get_u8
  liftE (TractionControl.try_from value)

/-- Fuel mix settings (`src/packet/status.rs`); the first variant is the
lean fuel mixture, code 0 (spelled `LeanMix` here). -/
inductive FuelMix where
  | LeanMix
  | Standard
  | Rich
  | Max

/-- The wire code each fuel-mix variant is decoded from, read off the match
table of `decode_fuel_mix` (`src/nineteen/status.rs`). -/
def FuelMix.code : FuelMix → Nat
  | .LeanMix => 0
  | .Standard => 1
  | .Rich => 2
  | .Max => 3

/-- The match table of `decode_fuel_mix` (`src/nineteen/status.rs` lines
82-95). -/
def FuelMix.try_from (value : Nat) : Except IoError FuelMix :=
  match value with
  | 0 => .ok .LeanMix
  | 1 => .ok .Standard
  | 2 => .ok .Rich
  | 3 => .ok .Max
  | _ => .error ⟨.invalidData, "Failed to decode fuel mix."⟩

/-- `decode_fuel_mix` (`src/nineteen/status.rs` lines 82-95). -/
def decode_fuel_mix : Dec FuelMix := do
  let value ← get_u8
  liftE (FuelMix.try_from value)

/-- DRS settings (`src/packet/status.rs`). -/
inductive DrsSetting where
  | Unknown
  | NotAllowed
  | Allowed

/-- The wire code each DRS-setting variant is decoded from, read off the
match table of `decode_drs` (`src/nineteen/status.rs`). -/
def DrsSetting.code : DrsSetting → Int
  | .Unknown => -1
  | .NotAllowed => 0
  | .Allowed => 1

/-- The match table of `decode_drs` (`src/nineteen/status.rs` lines 97-109),
applied to the `i8` read from the cursor. -/
def DrsSetting.try_from (value : Int) : Except IoError DrsSetting :=
  match value with
  | -1 => .ok .Unknown
  | 0 => .ok .NotAllowed
  | 1 => .ok .Allowed
  | _ => .error ⟨.invalidData, "Failed to decode DRS status."⟩

/-- `decode_drs` (`src/nineteen/status.rs` lines 97-109). -/
def decode_drs : Dec DrsSetting := do
  let value ← get_i8
  liftE (DrsSetting.try_from value)

/-- Physical tyre compounds (`src/packet/status.rs`). -/
inductive PhysicalTyreCompound where
  | ClassicDry
  | ClassicWet
  | F1C1
  | F1C2
  | F1C3
  | F1C4
  | F1C5
  | F1HyperSoft
  | F1UltraSoft
  | F1SuperSoft
  | F1Soft
  | F1Medium
  | F1Hard
  | F1SuperHard
  | F1Intermediate
  | F1Wet
  | F2SuperSoft
  | F2Soft
  | F2Medium
  | F2Hard
  | F2Wet

/-- The wire code each physical-tyre-compound variant is decoded from, read
off the match table of `decode_physical_tyre_compound`
(`src/nineteen/status.rs`). The table is partial over the enum: the variants
it never produces have no code. -/
def PhysicalTyreCompound.code : PhysicalTyreCompound → Option Nat
  | .F1Intermediate => some 7
  | .F1Wet => some 8
  | .ClassicDry => some 9
  | .ClassicWet => some 10
  | .F2SuperSoft => some 11
  | .F2Soft => some 12
  | .F2Medium => some 13
  | .F2Hard => some 14
  | .F2Wet => some 15
  | .F1C5 => some 16
  | .F1C4 => some 17
  | .F1C3 => some 18
  | .F1C2 => some 19
  | .F1C1 => some 20
  | .F1HyperSoft => none
  | .F1UltraSoft => none
  | .F1SuperSoft => none
  | .F1Soft => none
  | .F1Medium => none
  | .F1Hard => none
  | .F1SuperHard => none

/-- The match table of `decode_physical_tyre_compound`
(`src/nineteen/status.rs` lines 120-145). -/
def PhysicalTyreCompound.try_from (value : Nat) :
    Except IoError PhysicalTyreCompound :=
  match value with
  | 7 => .ok .F1Intermediate
  | 8 => .ok .F1Wet
  | 9 => .ok .ClassicDry
  | 10 => .ok .ClassicWet
  | 11 => .ok .F2SuperSoft
  | 12 => .ok .F2Soft
  | 13 => .ok .F2Medium
  | 14 => .ok .F2Hard
  | 15 => .ok .F2Wet
  | 16 => .ok .F1C5
  | 17 => .ok .F1C4
  | 18 => .ok .F1C3
  | 19 => .ok .F1C2
  | 20 => .ok .F1C1
  | _ => .error ⟨.invalidData, "Failed to decode physical tyre compound."⟩

/-- `decode_physical_tyre_compound` (`src/nineteen/status.rs` lines
120-145). -/
def decode_physical_tyre_compound : Dec PhysicalTyreCompound := do
  let value ← get_u8
  liftE (PhysicalTyreCompound.try_from value)

/-- Visual tyre compounds (`src/packet/status.rs`). -/
inductive VisualTyreCompound where
  | ClassicDry
  | ClassicWet
  | F1HyperSoft
  | F1UltraSoft
  | F1SuperSoft
  | F1Soft
  | F1Medium
  | F1Hard
  | F1SuperHard
  | F1Intermediate
  | F1Wet
  | F2SuperSoft
  | F2Soft
  | F2Medium
  | F2Hard
  | F2Wet

/-- The wire code each visual-tyre-compound variant is decoded from, read off
the match table of `decode_visual_tyre_compound` (`src/nineteen/status.rs`).
The table is partial over the enum: the variants it never produces have no
code. -/
def VisualTyreCompound.code : VisualTyreCompound → Option Nat
  | .F1Intermediate => some 7
  | .F1Wet => some 8
  | .ClassicDry => some 9
  | .ClassicWet => some 10
  | .F2SuperSoft => some 11
  | .F2Soft => some 12
  | .F2Medium => some 13
  | .F2Hard => some 14
  | .F2Wet => some 15
  | .F1Soft => some 16
  | .F1Medium => some 17
  | .F1Hard => some 18
  | .F1HyperSoft => none
  | .F1UltraSoft => none
  | .F1SuperSoft => none
  | .F1SuperHard => none

/-- The match table of `decode_visual_tyre_compound`
(`src/nineteen/status.rs` lines 147-170). -/
def VisualTyreCompound.try_from (value : Nat) :
    Except IoError VisualTyreCompound :=
  match value with
  | 7 => .ok .F1Intermediate
  | 8 => .ok .F1Wet
  | 9 => .ok .ClassicDry
  | 10 => .ok .ClassicWet
  | 11 => .ok .F2SuperSoft
  | 12 => .ok .F2Soft
  | 13 => .ok .F2Medium
  | 14 => .ok .F2Hard
  | 15 => .ok .F2Wet
  | 16 => .ok .F1Soft
  | 17 => .ok .F1Medium
  | 18 => .ok .F1Hard
  | _ => .error ⟨.invalidData, "Failed to decode visual tyre compound."⟩

/-- `decode_visual_tyre_compound` (`src/nineteen/status.rs` lines 147-170). -/
def decode_visual_tyre_compound : Dec VisualTyreCompound := do
  let value ← get_u8
  liftE (VisualTyreCompound.try_from value)

/-- ERS deployment modes (`src/packet/status.rs`). -/
inductive ErsDeployMode where
  | None
  | Low
  | Medium
  | High
  | Overtake
  | Hotlap

/-- The wire code each ERS-deploy-mode variant is decoded from, read off the
match table of `decode_ers_deploy_mode` (`src/nineteen/status.rs`). -/
def ErsDeployMode.code : ErsDeployMode → Nat
  | .None => 0
  | .Low => 1
  | .Medium => 2
  | .High => 3
  | .Overtake => 4
  | .Hotlap => 5

/-- The match table of `decode_ers_deploy_mode` (`src/nineteen/status.rs`
lines 181-196). -/
def ErsDeployMode.try_from (value : Nat) : Except IoError ErsDeployMode :=
  match value with
  | 0 => .ok .None
  | 1 => .ok .Low
  | 2 => .ok .Medium
  | 3 => .ok .High
  | 4 => .ok .Overtake
  | 5 => .ok .Hotlap
  | _ => .error ⟨.invalidData, "Failed to decode ERS deployment mode."⟩

/-- `decode_ers_deploy_mode` (`src/nineteen/status.rs` lines 181-196). -/
def decode_ers_deploy_mode : Dec ErsDeployMode := do
  let value ← get_u8
  liftE (ErsDeployMode.try_from value)

/-- `decode_tyre_wear` (`src/nineteen/status.rs` lines 111-118): four `u8`
corner values. -/
def decode_tyre_wear : Dec (CornerProperty Nat) := do
  let fl ← get_u8
  let fr ← get_u8
  let rl ← get_u8
  let rr ← get_u8
  pure (CornerProperty.mk fl fr rl rr)

/-- `decode_tyre_damage` (`src/nineteen/status.rs` lines 172-179). -/
def decode_tyre_damage : Dec (CornerProperty Nat) :=
  decode_tyre_wear

/-- Status of one car (`src/packet/status.rs`, struct `CarStatus`), fields
in declaration order, which is the argument order of the derived
`CarStatus::new`. -/
structure CarStatus where
  traction_control : TractionControl
  abs : Bool
  fuel_mix : FuelMix
  brake_bias : Nat
  pit_limiter : Bool
  fuel_remaining : Nat
  fuel_capacity : Nat
  fuel_remaining_laps : Nat
  max_rpm : Nat
  idle_rpm : Nat
  gear_count : Nat
  drs : DrsSetting
  tyre_wear : CornerProperty Nat
  physical_tyre_compound : PhysicalTyreCompound
  visual_tyre_compound : VisualTyreCompound
  tyre_damage : CornerProperty Nat
  front_left_wing_damage : Nat
  front_right_wing_damage : Nat
  rear_wing_damage : Nat
  engine_damage : Nat
  gear_box_damage : Nat
  vehicle_flags : Flag
  ers_energy : Nat
  ers_deploy_mode : ErsDeployMode
  ers_harvest_mgu_k : Nat
  ers_harvest_mgu_h : Nat
  ers_deployed : Nat

/-- Packet containing the status of all cars (`src/packet/status.rs`). -/
structure CarStatusPacket where
  header : Header
  statuses : List CarStatus

/-- The per-car loop body of `decode_statuses` (`src/nineteen/status.rs`
lines 34-62): one `CarStatus::new` call with its arguments read in wire
order. -/
def decode_status_record : Dec CarStatus := do
  let traction_control ← decode_traction_control
  let abs_raw ← get_u8
  let fuel_mix ← decode_fuel_mix
  let brake_bias ← get_u8
  let pit_limiter_raw ← get_u8
  let fuel_remaining ← get_f32_le
  let fuel_capacity ← get_f32_le
  let fuel_remaining_laps ← get_f32_le
  let max_rpm ← get_u16_le
  let idle_rpm ← get_u16_le
  let gear_count ← get_u8
  let drs ← decode_drs
  let tyre_wear ← decode_tyre_wear
  let physical_tyre_compound ← decode_physical_tyre_compound
  let visual_tyre_compound ← decode_visual_tyre_compound
  let tyre_damage ← decode_tyre_damage
  let front_left_wing_damage ← get_u8
  let front_right_wing_damage ← get_u8
  let rear_wing_damage ← get_u8
  let engine_damage ← get_u8
  let gear_box_damage ← get_u8
  let vehicle_flags ← decode_flag
  let ers_energy ← get_f32_le
  let ers_deploy_mode ← decode_ers_deploy_mode
  let ers_harvest_mgu_k ← get_f32_le
  let ers_harvest_mgu_h ← get_f32_le
  let ers_deployed ← get_f32_le
  pure (CarStatus.mk traction_control (decide (0 < abs_raw)) fuel_mix
    brake_bias (decide (0 < pit_limiter_raw)) fuel_remaining fuel_capacity
    fuel_remaining_laps max_rpm idle_rpm gear_count drs tyre_wear
    physical_tyre_compound visual_tyre_compound tyre_damage
    front_left_wing_damage front_right_wing_damage rear_wing_damage
    engine_damage gear_box_damage vehicle_flags ers_energy ers_deploy_mode
    ers_harvest_mgu_k ers_harvest_mgu_h ers_deployed)

/-- The `for _ in 0..20` loop of `decode_statuses`. -/
def decode_status_records : Nat → Dec (List CarStatus) :=
  decode_records decode_status_record

/-- Size of the car status packet in bytes (`src/nineteen/status.rs` line
21). -/
def STATUS_PACKET_SIZE : Nat := 1143

/-- `decode_statuses` (`src/nineteen/status.rs` lines 27-66): size gate,
header, 20 status records. -/
def decode_statuses : Dec CarStatusPacket := do
  ensure_packet_size STATUS_PACKET_SIZE
  let header ← decode_header
  let statuses ← decode_status_records 20
  pure (CarStatusPacket.mk header statuses)

/-! ## Motion packets (`src/packet/motion.rs`, `src/nineteen/motion.rs`) -/

/-- Motion data of one car (`src/packet/motion.rs`, struct `Motion`).
Normalized direction components are `i16` on the wire. -/
structure Motion where
  position : Property3D Nat
  velocity : Property3D Nat
  forward_direction : Property3D Int
  right_direction : Property3D Int
  g_force : Property3D Nat
  yaw : Nat
  pitch : Nat
  roll : Nat

/-- Packet with the motion data of all cars plus player-car-only extra data
(`src/packet/motion.rs`, struct `MotionPacket`). -/
structure MotionPacket where
  header : Header
  cars : List Motion
  suspension_positions : CornerProperty Nat
  suspension_velocity : CornerProperty Nat
  suspension_acceleration : CornerProperty Nat
  wheel_speed : CornerProperty Nat
  wheel_slip : CornerProperty Nat
  local_velocity : Property3D Nat
  angular_velocity : Property3D Nat
  angular_acceleration : Property3D Nat
  front_wheels_angle : Nat

/-- A three-component `f32` read (`decode_position`, `decode_velocity`,
`decode_g_force`, `decode_local_velocity`, `decode_angular_velocity`,
`decode_angular_acceleration` in `src/nineteen/motion.rs`). -/
def decode_property3d_f32 : Dec (Property3D Nat) := do
  let x ← get_f32_le
  let y ← get_f32_le
  let z ← get_f32_le
  pure (Property3D.mk x y z)

/-- A three-component `i16` read (`decode_forward_direction`,
`decode_right_direction` in `src/nineteen/motion.rs`). -/
def decode_property3d_i16 : Dec (Property3D Int) := do
  let x ← get_i16_le
  let y ← get_i16_le
  let z ← get_i16_le
  pure (Property3D.mk x y z)

/-- A four-component `f32` read (`decode_suspension_position` and the other
corner-property helpers in `src/nineteen/motion.rs`). -/
def decode_corner_f32 : Dec (CornerProperty Nat) := do
  let fl ← get_f32_le
  let fr ← get_f32_le
  let rl ← get_f32_le
  let rr ← get_f32_le
  pure (CornerProperty.mk fl fr rl rr)

/-- The per-car loop body of `decode_motion` (`src/nineteen/motion.rs` lines
29-38): one `Motion::new` call with its arguments read in wire order. -/
def decode_motion_record : Dec Motion := do
  let position ← decode_property3d_f32
  let velocity ← decode_property3d_f32
  let forward_direction ← decode_property3d_i16
  let right_direction ← decode_property3d_i16
  let g_force ← decode_property3d_f32
  let yaw ← get_f32_le
  let pitch ← get_f32_le
  let roll ← get_f32_le
  pure (Motion.mk position velocity forward_direction right_direction g_force
    yaw pitch roll)

/-- The `for _ in 0..20` loop of `decode_motion`. -/
def decode_motion_records : Nat → Dec (List Motion) :=
  decode_records decode_motion_record

/-- Size of the motion packet in bytes (`src/nineteen/motion.rs` line 16). -/
def MOTION_PACKET_SIZE : Nat := 1343

/-- `decode_motion` (`src/nineteen/motion.rs` lines 22-54): size gate,
header, 20 motion records, then the player-car-only block. -/
def decode_motion : Dec MotionPacket := do
  ensure_packet_size MOTION_PACKET_SIZE
  let header ← decode_header
  let cars ← decode_motion_records 20
  let suspension_positions ← decode_corner_f32
  let suspension_velocity ← decode_corner_f32
  let suspension_acceleration ← decode_corner_f32
  let wheel_speed ← decode_corner_f32
  let wheel_slip ← decode_corner_f32
  let local_velocity ← decode_property3d_f32
  let angular_velocity ← decode_property3d_f32
  let angular_acceleration ← decode_property3d_f32
  let front_wheels_angle ← get_f32_le
  pure (MotionPacket.mk header cars suspension_positions suspension_velocity
    suspension_acceleration wheel_speed wheel_slip local_velocity
    angular_velocity angular_acceleration front_wheels_angle)

/-! ## Car setup packets (`src/packet/setup.rs`, `src/nineteen/setup.rs`) -/

/-- Setup of one car (`src/packet/setup.rs`, struct `CarSetup`), fields in
declaration order, which is the argument order of the derived
`CarSetup::new`. -/
structure CarSetup where
  front_wing : Nat
  rear_wing : Nat
  on_throttle : Nat
  off_throttle : Nat
  front_camber : Nat
  rear_camber : Nat
  front_toe : Nat
  rear_toe : Nat
  front_suspension : Nat
  rear_suspension : Nat
  front_anti_roll_bar : Nat
  rear_anti_roll_bar : Nat
  front_suspension_height : Nat
  rear_suspension_height : Nat
  brake_pressure : Nat
  brake_bias : Nat
  front_tyre_pressure : Nat
  rear_tyre_pressure : Nat
  ballast : Nat
  fuel_load : Nat

/-- Packet with the setups of all cars (`src/packet/setup.rs`). -/
structure CarSetupPacket where
  header : Header
  setups : List CarSetup

/-- The per-car loop body of `decode_setups` (`src/nineteen/setup.rs` lines
26-47): one `CarSetup::new` call with its arguments read in wire order. -/
def decode_setup_record : Dec CarSetup := do
  let front_wing ← get_u8
  let rear_wing ← get_u8
  let on_throttle ← get_u8
  let off_throttle ← get_u8
  let front_camber ← get_f32_le
  let rear_camber ← get_f32_le
  let front_toe ← get_f32_le
  let rear_toe ← get_f32_le
  let front_suspension ← get_u8
  let rear_suspension ← get_u8
  let front_anti_roll_bar ← get_u8
  let rear_anti_roll_bar ← get_u8
  let front_suspension_height ← get_u8
  let rear_suspension_height ← get_u8
  let brake_pressure ← get_u8
  let brake_bias ← get_u8
  let front_tyre_pressure ← get_f32_le
  let rear_tyre_pressure ← get_f32_le
  let ballast ← get_u8
  let fuel_load ← get_f32_le
  pure (CarSetup.mk front_wing rear_wing on_throttle off_throttle
    front_camber rear_camber front_toe rear_toe front_suspension
    rear_suspension front_anti_roll_bar rear_anti_roll_bar
    front_suspension_height rear_suspension_height brake_pressure brake_bias
    front_tyre_pressure rear_tyre_pressure ballast fuel_load)

/-- The `for _ in 0..20` loop of `decode_setups`. -/
def decode_setup_records : Nat → Dec (List CarSetup) :=
  decode_records decode_setup_record

/-- Size of the car setups packet in bytes (`src/nineteen/setup.rs` line
13). -/
def SETUP_PACKET_SIZE : Nat := 843

/-- `decode_setups` (`src/nineteen/setup.rs` lines 19-51): size gate,
header, 20 setup records. -/
def decode_setups : Dec CarSetupPacket := do
  ensure_packet_size SETUP_PACKET_SIZE
  let header ← decode_header
  let setups ← decode_setup_records 20
  pure (CarSetupPacket.mk header setups)

/-! ## Session packets (`src/nineteen/session.rs`)

The `Packet` enum of `src/nineteen.rs` has a `Session(SessionPacket)`
variant, so the data types are embedded, together with the `TryFrom` impls
for the session enums. The session packet decoder itself is not exercised by
any claim: the packet-type enum of the present source has no `Session` value
for the dispatcher to reach it with. -/

/-- The session kinds (source enum `Session`, spelled `SessionKind` here;
declared codes 0-12). -/
inductive SessionKind where
  | Unknown
  | P1
  | P2
  | P3
  | ShortPractice
  | Q1
  | Q2
  | Q3
  | ShortQualifying
  | OneShotQualifying
  | Race
  | Race2
  | TimeTrial

/-- The numeric code the source enum declaration assigns to each session
kind. -/
def SessionKind.code : SessionKind → Nat
  | .Unknown => 0
  | .P1 => 1
  | .P2 => 2
  | .P3 => 3
  | .ShortPractice => 4
  | .Q1 => 5
  | .Q2 => 6
  | .Q3 => 7
  | .ShortQualifying => 8
  | .OneShotQualifying => 9
  | .Race => 10
  | .Race2 => 11
  | .TimeTrial => 12

/-- The `impl TryFrom<u8> for Session` (`src/nineteen/session.rs` lines
201-225). -/
def SessionKind.try_from (value : Nat) : Except IoError SessionKind :=
  match value with
  | 0 => .ok .Unknown
  | 1 => .ok .P1
  | 2 => .ok .P2
  | 3 => .ok .P3
  | 4 => .ok .ShortPractice
  | 5 => .ok .Q1
  | 6 => .ok .Q2
  | 7 => .ok .Q3
  | 8 => .ok .ShortQualifying
  | 9 => .ok .OneShotQualifying
  | 10 => .ok .Race
  | 11 => .ok .Race2
  | 12 => .ok .TimeTrial
  | _ => .error ⟨.invalidData, "Failed to decode session."⟩

/-- The tracks (source codes -1 to 24). -/
inductive Track where
  | Unknown
  | Melbourne
  | PaulRicard
  | Shanghai
  | Bahrain
  | Catalunya
  | Monaco
  | Montreal
  | Silverstone
  | Hockenheim
  | Hungaroring
  | Spa
  | Monza
  | Singapore
  | Suzuka
  | AbuDhabi
  | Texas
  | Brazil
  | Austria
  | Sochi
  | Mexico
  | Azerbaijan
  | BahrainShort
  | SilverstoneShort
  | TexasShort
  | SuzukaShort

/-- The numeric code the source enum declaration assigns to each track. -/
def Track.code : Track → Int
  | .Unknown => -1
  | .Melbourne => 0
  | .PaulRicard => 1
  | .Shanghai => 2
  | .Bahrain => 3
  | .Catalunya => 4
  | .Monaco => 5
  | .Montreal => 6
  | .Silverstone => 7
  | .Hockenheim => 8
  | .Hungaroring => 9
  | .Spa => 10
  | .Monza => 11
  | .Singapore => 12
  | .Suzuka => 13
  | .AbuDhabi => 14
  | .Texas => 15
  | .Brazil => 16
  | .Austria => 17
  | .Sochi => 18
  | .Mexico => 19
  | .Azerbaijan => 20
  | .BahrainShort => 21
  | .SilverstoneShort => 22
  | .TexasShort => 23
  | .SuzukaShort => 24

/-- The `impl TryFrom<i8> for Track` (`src/nineteen/session.rs` lines
227-264). -/
def Track.try_from (value : Int) : Except IoError Track :=
  match value with
  | -1 => .ok .Unknown
  | 0 => .ok .Melbourne
  | 1 => .ok .PaulRicard
  | 2 => .ok .Shanghai
  | 3 => .ok .Bahrain
  | 4 => .ok .Catalunya
  | 5 => .ok .Monaco
  | 6 => .ok .Montreal
  | 7 => .ok .Silverstone
  | 8 => .ok .Hockenheim
  | 9 => .ok .Hungaroring
  | 10 => .ok .Spa
  | 11 => .ok .Monza
  | 12 => .ok .Singapore
  | 13 => .ok .Suzuka
  | 14 => .ok .AbuDhabi
  | 15 => .ok .Texas
  | 16 => .ok .Brazil
  | 17 => .ok .Austria
  | 18 => .ok .Sochi
  | 19 => .ok .Mexico
  | 20 => .ok .Azerbaijan
  | 21 => .ok .BahrainShort
  | 22 => .ok .SilverstoneShort
  | 23 => .ok .TexasShort
  | 24 => .ok .SuzukaShort
  | _ => .error ⟨.invalidData, "Failed to decode track."⟩

/-- The weather kinds (source codes 0-5). -/
inductive Weather where
  | Clear
  | LightCloud
  | Overcast
  | LightRain
  | HeavyRain
  | Storm

/-- The numeric code the source enum declaration assigns to each weather
kind. -/
def Weather.code : Weather → Nat
  | .Clear => 0
  | .LightCloud => 1
  | .Overcast => 2
  | .LightRain => 3
  | .HeavyRain => 4
  | .Storm => 5

/-- The `impl TryFrom<u8> for Weather` (`src/nineteen/session.rs` lines
266-283). -/
def Weather.try_from (value : Nat) : Except IoError Weather :=
  match value with
  | 0 => .ok .Clear
  | 1 => .ok .LightCloud
  | 2 => .ok .Overcast
  | 3 => .ok .LightRain
  | 4 => .ok .HeavyRain
  | 5 => .ok .Storm
  | _ => .error ⟨.invalidData, "Failed to decode weather."⟩

/-- The formula kinds (source codes 0-3). -/
inductive Formula where
  | ModernF1
  | ClassicF1
  | F2
  | GenericF1

/-- The numeric code the source enum declaration assigns to each formula
kind. -/
def Formula.code : Formula → Nat
  | .ModernF1 => 0
  | .ClassicF1 => 1
  | .F2 => 2
  | .GenericF1 => 3

/-- The `impl TryFrom<u8> for Formula` (`src/nineteen/session.rs` lines
168-183). -/
def Formula.try_from (value : Nat) : Except IoError Formula :=
  match value with
  | 0 => .ok .ModernF1
  | 1 => .ok .ClassicF1
  | 2 => .ok .F2
  | 3 => .ok .GenericF1
  | _ => .error ⟨.invalidData, "Failed to decode formula."⟩

/-- The safety-car kinds (source codes 0-2). -/
inductive SafetyCar where
  | None
  | Full
  | Virtual

/-- The numeric code the source enum declaration assigns to each safety-car
kind. -/
def SafetyCar.code : SafetyCar → Nat
  | .None => 0
  | .Full => 1
  | .Virtual => 2

/-- The `impl TryFrom<u8> for SafetyCar` (`src/nineteen/session.rs` lines
185-199). -/
def SafetyCar.try_from (value : Nat) : Except IoError SafetyCar :=
  match value with
  | 0 => .ok .None
  | 1 => .ok .Full
  | 2 => .ok .Virtual
  | _ => .error ⟨.invalidData, "Failed to decode safety car."⟩

/-- A marshal zone around the track. -/
structure MarshalZone where
  start : Nat
  flag : Flag

/-- Packet with general information about the session
(`src/nineteen/session.rs`, struct `SessionPacket`). -/
structure SessionPacket where
  header : PacketHeader
  weather : Weather
  track_temperature : Int
  air_temperature : Int
  total_laps : Nat
  track_length : Nat
  session_type : SessionKind
  track : Track
  formula : Formula
  time_left : Nat
  duration : Nat
  pit_speed_limit : Nat
  game_paused : Bool
  is_spectating : Bool
  spectator_car_index : Nat
  sli_pro_support : Bool
  marshal_zones : List MarshalZone
  safety_car : SafetyCar
  network_session : Bool

/-! ## The packet union, the dispatcher and the codec (`src/nineteen.rs`,
`src/codec.rs`) -/

/-- A packet published by F1 2019 (`src/nineteen.rs` lines 54-62). -/
inductive Packet where
  | Lap : LapPacket → Packet
  | Motion : MotionPacket → Packet
  | Participants : ParticipantsPacket → Packet
  | Session : SessionPacket → Packet
  | Setup : CarSetupPacket → Packet
  | Telemetry : TelemetryPacket → Packet
  | Status : CarStatusPacket → Packet

/-- `Packet::peek_packet_id` (`src/nineteen.rs` lines 90-97): jump to
position 5, read the packet-type byte, convert it, and on success reset the
position to 0. An early `?` return on a bad type byte leaves the cursor at
position 6. -/
def Packet.peek_packet_id : Dec PacketType := do
  set_position 5
  let b ← get_u8
  let packet_type ← liftE (PacketType.try_from b)
  set_position 0
  pure packet_type

/-- Modelled from the spec: `TelemetryPacket::from_bytes`, the unified-format
decode entry dispatched to by `src/nineteen.rs` line 119 but absent from
`src/`. The telemetry decoder present under `src/` is `decode_telemetry`
(`src/nineteen/telemetry.rs`), which per spec section 4.5 performs the
declared-size gate itself and then decodes; the missing entry is modelled as
exactly that decoder. -/
def TelemetryPacket.from_bytes : Dec TelemetryPacket :=
  decode_telemetry

/-- Modelled from the spec: `CarStatusPacket::from_bytes`, the unified-format
decode entry dispatched to by `src/nineteen.rs` line 120 but absent from
`src/`; modelled as the status decoder `decode_statuses`
(`src/nineteen/status.rs`), which performs the declared-size gate itself. -/
def CarStatusPacket.from_bytes : Dec CarStatusPacket :=
  decode_statuses

/-- `Packet::buffer_size` (`src/nineteen.rs` lines 101-103): six bytes are
needed before the packet type can be peeked. -/
def Packet.buffer_size : Nat := 6

/-- `Packet::decode` (`src/nineteen.rs` lines 105-124): peek the packet
type, then dispatch. The `PacketType` enum of the present source has only
the `Telemetry` and `Status` values, so only those two arms exist. -/
def Packet.decode : Dec Packet := do
  let packet_type ← Packet.peek_packet_id
  match packet_type with
  | .Telemetry => do
    let p ← TelemetryPacket.from_bytes
    pure (Packet.Telemetry p)
  | .Status => do
    let p ← CarStatusPacket.from_bytes
    pure (Packet.Status p)

/-- `Packet::from_bytes`: the default method of the missing trait module
`crate::from_bytes` (see `from_bytes_min`) at `buffer_size = 6`. -/
def Packet.from_bytes : Dec Packet :=
  from_bytes_min Packet.buffer_size Packet.decode

/-- The result of `F1Codec::decode` paired with the state of the `BytesMut`
buffer afterwards: the buffer is cleared on a successful decode and left
untouched otherwise (cursor reads never consume from the `BytesMut`
itself). -/
def codec_decode (src : List Nat) : Except IoError (Option Packet) × List Nat :=
  let cursor : ByteCursor := ⟨src, 0⟩
  if cursor.remaining < 2 then
    (.ok none, src)
  else
    match get_u16_le cursor with
    | .err e _ => (.error e, src)
    | .ok packet_format c =>
      let packet :=
        if packet_format = 2019 then
          Packet.from_bytes c
        else
          DRes.err
            ⟨.invalidData,
              "Unknown packet format " ++ toString packet_format ++ "."⟩ c
      match packet with
      | .ok p _ => (.ok (some p), [])
      | .err e _ =>
        match e.kind with
        | .unexpectedEof => (.ok none, src)
        | _ => (.error e, src)

/-! ## Concrete wire buffers used by witnesses and counterexamples -/

/-- A 23-byte packet header on the wire: version tag 2019 (little endian
`[227, 7]`), game version 1.2, packet version 3, packet type `t`, and zeroed
session id, session time, frame id and player car index. -/
def header_bytes (t : Nat) : List Nat :=
  [227, 7, 1, 2, 3, t] ++ List.replicate 17 0

/-- A full 843-byte Lap packet: header with type byte 6 and twenty zeroed
lap records (all enum bytes 0 are valid codes). -/
def lap_buffer : List Nat :=
  header_bytes 6 ++ List.replicate 820 0

/-- A full 1104-byte Participants packet with participant count 1: one
participant with controller 0, driver 0, team 0, race number 4,
nationality 1, name `"A"` then NUL, telemetry setting 0, padded with
zeroes. -/
def participants_buffer : List Nat :=
  header_bytes 6 ++ [1] ++ [0, 0, 0, 4, 1, 65, 0, 0] ++ List.replicate 1072 0

/-- A full 1343-byte Motion packet: header plus zeroes (the motion body has
no enum fields, so a zeroed body decodes). -/
def motion_buffer : List Nat :=
  header_bytes 0 ++ List.replicate 1320 0

/-- A full 843-byte Setup packet: header plus zeroes (no enum fields). -/
def setup_buffer : List Nat :=
  header_bytes 5 ++ List.replicate 820 0

/-- One 56-byte car-status record whose enum bytes are all valid: zeroes
except the physical and visual tyre compound bytes, both 7. -/
def status_record_bytes : List Nat :=
  List.replicate 27 0 ++ [7, 7] ++ List.replicate 27 0

/-- A helper to flatten `n` copies of a byte block. -/
def repeat_block (block : List Nat) : Nat → List Nat
  | 0 => []
  | n + 1 => block ++ repeat_block block n

/-- A full 1143-byte Status packet: header plus twenty valid status
records. -/
def status_buffer : List Nat :=
  header_bytes 7 ++ repeat_block status_record_bytes 20

/-- A full 1347-byte Telemetry packet: header plus zeroes (gear 0, surface
0 and button word 0 are all valid). -/
def telemetry_buffer : List Nat :=
  header_bytes 6 ++ List.replicate 1324 0

/-- A 41-byte name field holding `"Player"`, a NUL, 33 filler zeroes, and
then the byte 5 that the next read after a fixed-width skip would see. -/
def player_name_buffer : List Nat :=
  [80, 108, 97, 121, 101, 114, 0] ++ List.replicate 33 0 ++ [5]

/-! ## General lemmas about the cursor monad and the primitive reads -/

theorem Dec.bind_ok {α β : Type} {m : Dec α} {f : α → Dec β} {c : ByteCursor}
    {b : β} {c' : ByteCursor} (h : (m >>= f) c = .ok b c') :
    ∃ a cm, m c = .ok a cm ∧ f a cm = .ok b c' := by
  rw [Dec.run_bind] at h
  cases hm : m c with
  | ok a cm => rw [hm] at h; exact ⟨a, cm, rfl, h⟩
  | err e cm => rw [hm] at h; cases h

theorem Dec.pure_ok {α : Type} {a b : α} {c c' : ByteCursor}
    (h : (Pure.pure a : Dec α) c = .ok b c') : b = a ∧ c' = c := by
  rw [Dec.run_pure] at h
  cases h
  exact ⟨rfl, rfl⟩

theorem Dec.liftE_ok {α : Type} {x : Except IoError α} {a : α}
    {c c' : ByteCursor} (h : Dec.liftE x c = .ok a c') :
    x = .ok a ∧ c' = c := by
  unfold Dec.liftE at h
  cases x with
  | ok v => cases h; exact ⟨rfl, rfl⟩
  | error e => cases h

theorem get_u8_ok {buf : List Nat} {pos : Nat} {v : Nat} {c' : ByteCursor}
    (h : get_u8 ⟨buf, pos⟩ = .ok v c') :
    pos < buf.length ∧ v = buf.getD pos 0 ∧ c' = ⟨buf, pos + 1⟩ := by
  unfold get_u8 at h
  split at h
  · cases h; exact ⟨by assumption, rfl, rfl⟩
  · cases h

theorem get_i8_ok {buf : List Nat} {pos : Nat} {v : Int} {c' : ByteCursor}
    (h : get_i8 ⟨buf, pos⟩ = .ok v c') :
    v = i8_of_byte (buf.getD pos 0) ∧ c' = ⟨buf, pos + 1⟩ := by
  unfold get_i8 at h
  obtain ⟨b, c1, h1, h⟩ := Dec.bind_ok h
  obtain ⟨-, rfl, rfl⟩ := get_u8_ok h1
  obtain ⟨rfl, rfl⟩ := Dec.pure_ok h
  exact ⟨rfl, rfl⟩

theorem get_u16_le_ok {buf : List Nat} {pos : Nat} {v : Nat} {c' : ByteCursor}
    (h : get_u16_le ⟨buf, pos⟩ = .ok v c') :
    v = buf.getD pos 0 + 256 * buf.getD (pos + 1) 0 ∧
      c' = ⟨buf, pos + 2⟩ := by
  unfold get_u16_le at h
  obtain ⟨b0, c1, h1, h⟩ := Dec.bind_ok h
  obtain ⟨-, rfl, rfl⟩ := get_u8_ok h1
  obtain ⟨b1, c2, h2, h⟩ := Dec.bind_ok h
  obtain ⟨-, rfl, rfl⟩ := get_u8_ok h2
  obtain ⟨rfl, rfl⟩ := Dec.pure_ok h
  exact ⟨rfl, rfl⟩

theorem get_i16_le_ok {buf : List Nat} {pos : Nat} {v : Int} {c' : ByteCursor}
    (h : get_i16_le ⟨buf, pos⟩ = .ok v c') : c' = ⟨buf, pos + 2⟩ := by
  unfold get_i16_le at h
  obtain ⟨w, c1, h1, h⟩ := Dec.bind_ok h
  obtain ⟨-, rfl⟩ := get_u16_le_ok h1
  obtain ⟨rfl, rfl⟩ := Dec.pure_ok h
  rfl

/-- The little-endian 32-bit value formed by the four bytes of `buf` starting
at `pos`. -/
def u32_le_at (buf : List Nat) (pos : Nat) : Nat :=
  buf.getD pos 0 + 256 * buf.getD (pos + 1) 0 + 65536 * buf.getD (pos + 2) 0 +
    16777216 * buf.getD (pos + 3) 0

theorem get_u32_le_ok {buf : List Nat} {pos : Nat} {v : Nat} {c' : ByteCursor}
    (h : get_u32_le ⟨buf, pos⟩ = .ok v c') :
    v = u32_le_at buf pos ∧ c' = ⟨buf, pos + 4⟩ := by
  unfold get_u32_le at h
  obtain ⟨b0, c1, h1, h⟩ := Dec.bind_ok h
  obtain ⟨-, rfl, rfl⟩ := get_u8_ok h1
  obtain ⟨b1, c2, h2, h⟩ := Dec.bind_ok h
  obtain ⟨-, rfl, rfl⟩ := get_u8_ok h2
  obtain ⟨b2, c3, h3, h⟩ := Dec.bind_ok h
  obtain ⟨-, rfl, rfl⟩ := get_u8_ok h3
  obtain ⟨b3, c4, h4, h⟩ := Dec.bind_ok h
  obtain ⟨-, rfl, rfl⟩ := get_u8_ok h4
  obtain ⟨rfl, rfl⟩ := Dec.pure_ok h
  refine ⟨?_, rfl⟩
  unfold u32_le_at
  rw [show pos + 1 + 1 = pos + 2 from rfl, show pos + 1 + 1 + 1 = pos + 3 from rfl]

theorem get_f32_le_ok {buf : List Nat} {pos : Nat} {v : Nat} {c' : ByteCursor}
    (h : get_f32_le ⟨buf, pos⟩ = .ok v c') : c' = ⟨buf, pos + 4⟩ :=
  (get_u32_le_ok h).2

theorem get_u64_le_ok {buf : List Nat} {pos : Nat} {v : Nat} {c' : ByteCursor}
    (h : get_u64_le ⟨buf, pos⟩ = .ok v c') : c' = ⟨buf, pos + 8⟩ := by
  unfold get_u64_le at h
  obtain ⟨lo, c1, h1, h⟩ := Dec.bind_ok h
  obtain ⟨-, rfl⟩ := get_u32_le_ok h1
  obtain ⟨hi, c2, h2, h⟩ := Dec.bind_ok h
  obtain ⟨-, rfl⟩ := get_u32_le_ok h2
  obtain ⟨rfl, rfl⟩ := Dec.pure_ok h
  rfl

/-! ## Generic lemmas about the record loops -/

theorem decode_records_ok_length {α : Type} {rec : Dec α} :
    ∀ {n : Nat} {c : ByteCursor} {l : List α} {c' : ByteCursor},
      decode_records rec n c = .ok l c' → l.length = n := by
  intro n
  induction n with
  | zero =>
    intro c l c' h
    unfold decode_records at h
    obtain ⟨rfl, -⟩ := Dec.pure_ok h
    rfl
  | succ n ih =>
    intro c l c' h
    unfold decode_records at h
    obtain ⟨x, c1, -, h⟩ := Dec.bind_ok h
    obtain ⟨rest, c2, hrest, h⟩ := Dec.bind_ok h
    obtain ⟨rfl, -⟩ := Dec.pure_ok h
    simp [ih hrest]

theorem decode_records_advance {α : Type} {rec : Dec α} {k : Nat}
    (hadv : ∀ buf pos a c', rec ⟨buf, pos⟩ = .ok a c' → c' = ⟨buf, pos + k⟩) :
    ∀ {n : Nat} {buf : List Nat} {pos : Nat} {l : List α} {c' : ByteCursor},
      decode_records rec n ⟨buf, pos⟩ = .ok l c' → c' = ⟨buf, pos + k * n⟩ := by
  intro n
  induction n with
  | zero =>
    intro buf pos l c' h
    unfold decode_records at h
    obtain ⟨-, rfl⟩ := Dec.pure_ok h
    simp
  | succ n ih =>
    intro buf pos l c' h
    unfold decode_records at h
    obtain ⟨x, c1, hx, h⟩ := Dec.bind_ok h
    obtain rfl := hadv _ _ _ _ hx
    obtain ⟨rest, c2, hrest, h⟩ := Dec.bind_ok h
    obtain rfl := ih hrest
    obtain ⟨-, rfl⟩ := Dec.pure_ok h
    congr 1
    ring

theorem decode_records_get {α : Type} {rec : Dec α} {k : Nat}
    {P : List Nat → Nat → α → Prop}
    (hadv : ∀ buf pos a c', rec ⟨buf, pos⟩ = .ok a c' → c' = ⟨buf, pos + k⟩)
    (hP : ∀ buf pos a c', rec ⟨buf, pos⟩ = .ok a c' → P buf pos a) :
    ∀ {n : Nat} {buf : List Nat} {pos : Nat} {l : List α} {c' : ByteCursor},
      decode_records rec n ⟨buf, pos⟩ = .ok l c' →
        ∀ i (hi : i < l.length), P buf (pos + k * i) (l.get ⟨i, hi⟩) := by
  intro n
  induction n with
  | zero =>
    intro buf pos l c' h i hi
    obtain ⟨rfl, -⟩ := Dec.pure_ok h
    exact absurd hi (by simp)
  | succ n ih =>
    intro buf pos l c' h i hi
    unfold decode_records at h
    obtain ⟨x, c1, hx, h⟩ := Dec.bind_ok h
    obtain rfl := hadv _ _ _ _ hx
    obtain ⟨rest, c2, hrest, h⟩ := Dec.bind_ok h
    obtain ⟨rfl, -⟩ := Dec.pure_ok h
    match i with
    | 0 =>
      simpa using hP _ _ _ _ hx
    | i + 1 =>
      have := ih hrest i (by simpa using hi)
      have harith : pos + k * (i + 1) = pos + k + k * i := by ring
      rw [harith]
      simpa using this

/-! ## Shape lemmas for the per-record decoders -/

theorem decode_lap_record_ok {buf : List Nat} {pos : Nat} {r : Lap}
    {c' : ByteCursor} (h : decode_lap_record ⟨buf, pos⟩ = .ok r c') :
    c' = ⟨buf, pos + 41⟩ ∧
      r.is_lap_valid = decide (1 < buf.getD (pos + 36) 0) := by
  unfold decode_lap_record at h
  obtain ⟨v1, c1, h1, h⟩ := Dec.bind_ok h
  obtain rfl := get_f32_le_ok h1
  obtain ⟨v2, c2, h2, h⟩ := Dec.bind_ok h
  obtain rfl := get_f32_le_ok h2
  obtain ⟨v3, c3, h3, h⟩ := Dec.bind_ok h
  obtain rfl := get_f32_le_ok h3
  obtain ⟨v4, c4, h4, h⟩ := Dec.bind_ok h
  obtain rfl := get_f32_le_ok h4
  obtain ⟨v5, c5, h5, h⟩ := Dec.bind_ok h
  obtain rfl := get_f32_le_ok h5
  obtain ⟨v6, c6, h6, h⟩ := Dec.bind_ok h
  obtain rfl := get_f32_le_ok h6
  obtain ⟨v7, c7, h7, h⟩ := Dec.bind_ok h
  obtain rfl := get_f32_le_ok h7
  obtain ⟨v8, c8, h8, h⟩ := Dec.bind_ok h
  obtain rfl := get_f32_le_ok h8
  obtain ⟨v9, c9, h9, h⟩ := Dec.bind_ok h
  obtain ⟨-, -, rfl⟩ := get_u8_ok h9
  obtain ⟨v10, c10, h10, h⟩ := Dec.bind_ok h
  obtain ⟨-, -, rfl⟩ := get_u8_ok h10
  obtain ⟨v11, c11, h11, h⟩ := Dec.bind_ok h
  obtain ⟨-, -, rfl⟩ := get_u8_ok h11
  obtain ⟨p11, c11a, h11a, h⟩ := Dec.bind_ok h
  obtain ⟨-, rfl⟩ := Dec.liftE_ok h11a
  obtain ⟨v12, c12, h12, h⟩ := Dec.bind_ok h
  obtain ⟨-, -, rfl⟩ := get_u8_ok h12
  obtain ⟨p12, c12a, h12a, h⟩ := Dec.bind_ok h
  obtain ⟨-, rfl⟩ := Dec.liftE_ok h12a
  obtain ⟨v13, c13, h13, h⟩ := Dec.bind_ok h
  obtain ⟨-, hv13, rfl⟩ := get_u8_ok h13
  obtain ⟨v14, c14, h14, h⟩ := Dec.bind_ok h
  obtain ⟨-, -, rfl⟩ := get_u8_ok h14
  obtain ⟨v15, c15, h15, h⟩ := Dec.bind_ok h
  obtain ⟨-, -, rfl⟩ := get_u8_ok h15
  obtain ⟨v16, c16, h16, h⟩ := Dec.bind_ok h
  obtain ⟨-, -, rfl⟩ := get_u8_ok h16
  obtain ⟨p16, c16a, h16a, h⟩ := Dec.bind_ok h
  obtain ⟨-, rfl⟩ := Dec.liftE_ok h16a
  obtain ⟨v17, c17, h17, h⟩ := Dec.bind_ok h
  obtain ⟨-, -, rfl⟩ := get_u8_ok h17
  obtain ⟨p17, c17a, h17a, h⟩ := Dec.bind_ok h
  obtain ⟨-, rfl⟩ := Dec.liftE_ok h17a
  obtain ⟨rfl, rfl⟩ := Dec.pure_ok h
  subst hv13
  exact ⟨rfl, rfl⟩

theorem packet_header_decode_ok {buf : List Nat} {pos : Nat} {hd : PacketHeader}
    {c' : ByteCursor} (h : PacketHeader.decode ⟨buf, pos⟩ = .ok hd c') :
    c' = ⟨buf, pos + 23⟩ := by
  unfold PacketHeader.decode at h
  obtain ⟨v1, c1, h1, h⟩ := Dec.bind_ok h
  obtain ⟨-, rfl⟩ := get_u16_le_ok h1
  obtain ⟨v2, c2, h2, h⟩ := Dec.bind_ok h
  obtain ⟨-, -, rfl⟩ := get_u8_ok h2
  obtain ⟨v3, c3, h3, h⟩ := Dec.bind_ok h
  obtain ⟨-, -, rfl⟩ := get_u8_ok h3
  obtain ⟨v4, c4, h4, h⟩ := Dec.bind_ok h
  obtain ⟨-, -, rfl⟩ := get_u8_ok h4
  obtain ⟨v5, c5, h5, h⟩ := Dec.bind_ok h
  obtain ⟨-, -, rfl⟩ := get_u8_ok h5
  obtain ⟨v5a, c5a, h5a, h⟩ := Dec.bind_ok h
  obtain ⟨-, rfl⟩ := Dec.liftE_ok h5a
  obtain ⟨v6, c6, h6, h⟩ := Dec.bind_ok h
  obtain rfl := get_u64_le_ok h6
  obtain ⟨v7, c7, h7, h⟩ := Dec.bind_ok h
  obtain rfl := get_f32_le_ok h7
  obtain ⟨v8, c8, h8, h⟩ := Dec.bind_ok h
  obtain ⟨-, rfl⟩ := get_u32_le_ok h8
  obtain ⟨v9, c9, h9, h⟩ := Dec.bind_ok h
  obtain ⟨-, -, rfl⟩ := get_u8_ok h9
  obtain ⟨-, rfl⟩ := Dec.pure_ok h
  rfl

theorem decode_header_ok {buf : List Nat} {pos : Nat} {hd : Header}
    {c' : ByteCursor} (h : decode_header ⟨buf, pos⟩ = .ok hd c') :
    c' = ⟨buf, pos + 23⟩ := by
  unfold decode_header at h
  obtain ⟨v1, c1, h1, h⟩ := Dec.bind_ok h
  obtain ⟨-, rfl⟩ := get_u16_le_ok h1
  obtain ⟨v2, c2, h2, h⟩ := Dec.bind_ok h
  obtain ⟨-, -, rfl⟩ := get_u8_ok h2
  obtain ⟨v3, c3, h3, h⟩ := Dec.bind_ok h
  obtain ⟨-, -, rfl⟩ := get_u8_ok h3
  obtain ⟨v4, c4, h4, h⟩ := Dec.bind_ok h
  obtain ⟨-, -, rfl⟩ := get_u8_ok h4
  obtain ⟨v5, c5, h5, h⟩ := Dec.bind_ok h
  obtain ⟨-, -, rfl⟩ := get_u8_ok h5
  obtain ⟨v6, c6, h6, h⟩ := Dec.bind_ok h
  obtain rfl := get_u64_le_ok h6
  obtain ⟨v7, c7, h7, h⟩ := Dec.bind_ok h
  obtain rfl := get_f32_le_ok h7
  obtain ⟨v8, c8, h8, h⟩ := Dec.bind_ok h
  obtain ⟨-, rfl⟩ := get_u32_le_ok h8
  obtain ⟨v9, c9, h9, h⟩ := Dec.bind_ok h
  obtain ⟨-, -, rfl⟩ := get_u8_ok h9
  obtain ⟨-, rfl⟩ := Dec.pure_ok h
  rfl

theorem ensure_packet_size_ok {expected : Nat} {buf : List Nat} {pos : Nat}
    {c' : ByteCursor} {u : Unit}
    (h : ensure_packet_size expected ⟨buf, pos⟩ = .ok u c') :
    c' = ⟨buf, pos⟩ := by
  unfold ensure_packet_size at h
  split at h
  · cases h
  · cases h; rfl

theorem decode_brake_temperature_ok {buf : List Nat} {pos : Nat}
    {v : CornerProperty Nat} {c' : ByteCursor}
    (h : decode_brake_temperature ⟨buf, pos⟩ = .ok v c') :
    c' = ⟨buf, pos + 8⟩ := by
  unfold decode_brake_temperature at h
  obtain ⟨v1, c1, h1, h⟩ := Dec.bind_ok h
  obtain ⟨-, rfl⟩ := get_u16_le_ok h1
  obtain ⟨v2, c2, h2, h⟩ := Dec.bind_ok h
  obtain ⟨-, rfl⟩ := get_u16_le_ok h2
  obtain ⟨v3, c3, h3, h⟩ := Dec.bind_ok h
  obtain ⟨-, rfl⟩ := get_u16_le_ok h3
  obtain ⟨v4, c4, h4, h⟩ := Dec.bind_ok h
  obtain ⟨-, rfl⟩ := get_u16_le_ok h4
  obtain ⟨-, rfl⟩ := Dec.pure_ok h
  rfl

theorem decode_tyre_pressure_ok {buf : List Nat} {pos : Nat}
    {v : CornerProperty Nat} {c' : ByteCursor}
    (h : decode_tyre_pressure ⟨buf, pos⟩ = .ok v c') :
    c' = ⟨buf, pos + 16⟩ := by
  unfold decode_tyre_pressure at h
  obtain ⟨v1, c1, h1, h⟩ := Dec.bind_ok h
  obtain rfl := get_f32_le_ok h1
  obtain ⟨v2, c2, h2, h⟩ := Dec.bind_ok h
  obtain rfl := get_f32_le_ok h2
  obtain ⟨v3, c3, h3, h⟩ := Dec.bind_ok h
  obtain rfl := get_f32_le_ok h3
  obtain ⟨v4, c4, h4, h⟩ := Dec.bind_ok h
  obtain rfl := get_f32_le_ok h4
  obtain ⟨-, rfl⟩ := Dec.pure_ok h
  rfl

theorem decode_gear_ok {buf : List Nat} {pos : Nat} {v : Gear}
    {c' : ByteCursor} (h : decode_gear ⟨buf, pos⟩ = .ok v c') :
    c' = ⟨buf, pos + 1⟩ := by
  unfold decode_gear at h
  obtain ⟨v1, c1, h1, h⟩ := Dec.bind_ok h
  obtain ⟨-, rfl⟩ := get_i8_ok h1
  obtain ⟨-, rfl⟩ := Dec.liftE_ok h
  rfl

theorem decode_surface_ok {buf : List Nat} {pos : Nat} {v : Surface}
    {c' : ByteCursor} (h : decode_surface ⟨buf, pos⟩ = .ok v c') :
    c' = ⟨buf, pos + 1⟩ := by
  unfold decode_surface at h
  obtain ⟨v1, c1, h1, h⟩ := Dec.bind_ok h
  obtain ⟨-, -, rfl⟩ := get_u8_ok h1
  obtain ⟨-, rfl⟩ := Dec.liftE_ok h
  rfl

theorem decode_surface_type_ok {buf : List Nat} {pos : Nat}
    {v : CornerProperty Surface} {c' : ByteCursor}
    (h : decode_surface_type ⟨buf, pos⟩ = .ok v c') :
    c' = ⟨buf, pos + 4⟩ := by
  unfold decode_surface_type at h
  obtain ⟨v1, c1, h1, h⟩ := Dec.bind_ok h
  obtain rfl := decode_surface_ok h1
  obtain ⟨v2, c2, h2, h⟩ := Dec.bind_ok h
  obtain rfl := decode_surface_ok h2
  obtain ⟨v3, c3, h3, h⟩ := Dec.bind_ok h
  obtain rfl := decode_surface_ok h3
  obtain ⟨v4, c4, h4, h⟩ := Dec.bind_ok h
  obtain rfl := decode_surface_ok h4
  obtain ⟨-, rfl⟩ := Dec.pure_ok h
  rfl

theorem decode_telemetry_record_ok {buf : List Nat} {pos : Nat} {t : Telemetry}
    {c' : ByteCursor} (h : decode_telemetry_record ⟨buf, pos⟩ = .ok t c') :
    c' = ⟨buf, pos + 66⟩ := by
  unfold decode_telemetry_record at h
  obtain ⟨v1, c1, h1, h⟩ := Dec.bind_ok h
  obtain ⟨-, rfl⟩ := get_u16_le_ok h1
  obtain ⟨v2, c2, h2, h⟩ := Dec.bind_ok h
  obtain rfl := get_f32_le_ok h2
  obtain ⟨v3, c3, h3, h⟩ := Dec.bind_ok h
  obtain rfl := get_f32_le_ok h3
  obtain ⟨v4, c4, h4, h⟩ := Dec.bind_ok h
  obtain rfl := get_f32_le_ok h4
  obtain ⟨v5, c5, h5, h⟩ := Dec.bind_ok h
  obtain ⟨-, -, rfl⟩ := get_u8_ok h5
  obtain ⟨v6, c6, h6, h⟩ := Dec.bind_ok h
  obtain rfl := decode_gear_ok h6
  obtain ⟨v7, c7, h7, h⟩ := Dec.bind_ok h
  obtain ⟨-, rfl⟩ := get_u16_le_ok h7
  obtain ⟨v8, c8, h8, h⟩ := Dec.bind_ok h
  obtain ⟨-, -, rfl⟩ := get_u8_ok h8
  obtain ⟨v9, c9, h9, h⟩ := Dec.bind_ok h
  obtain ⟨-, -, rfl⟩ := get_u8_ok h9
  obtain ⟨v10, c10, h10, h⟩ := Dec.bind_ok h
  obtain rfl := decode_brake_temperature_ok h10
  obtain ⟨v11, c11, h11, h⟩ := Dec.bind_ok h
  obtain rfl := decode_brake_temperature_ok h11
  obtain ⟨v12, c12, h12, h⟩ := Dec.bind_ok h
  obtain rfl := decode_brake_temperature_ok h12
  obtain ⟨v13, c13, h13, h⟩ := Dec.bind_ok h
  obtain ⟨-, rfl⟩ := get_u16_le_ok h13
  obtain ⟨v14, c14, h14, h⟩ := Dec.bind_ok h
  obtain rfl := decode_tyre_pressure_ok h14
  obtain ⟨v15, c15, h15, h⟩ := Dec.bind_ok h
  obtain rfl := decode_surface_type_ok h15
  obtain ⟨-, rfl⟩ := Dec.pure_ok h
  rfl

/-- The full shape of a successful `decode_telemetry`: twenty records, the
button word read from the four bytes at offset 1343 from the start, and the
cursor left 1347 bytes along. -/
theorem decode_telemetry_ok {buf : List Nat} {pos : Nat} {p : TelemetryPacket}
    {c' : ByteCursor} (h : decode_telemetry ⟨buf, pos⟩ = .ok p c') :
    p.telemetry.length = 20 ∧
      p.button_status = button_status_of (u32_le_at buf (pos + 1343)) ∧
      c' = ⟨buf, pos + 1347⟩ := by
  unfold decode_telemetry at h
  obtain ⟨u, c0, h0, h⟩ := Dec.bind_ok h
  obtain rfl := ensure_packet_size_ok h0
  obtain ⟨hd, c1, h1, h⟩ := Dec.bind_ok h
  obtain rfl := decode_header_ok h1
  obtain ⟨recs, c2, h2, h⟩ := Dec.bind_ok h
  have hlen := decode_records_ok_length h2
  obtain rfl :=
    decode_records_advance (fun _ _ _ _ hr => decode_telemetry_record_ok hr) h2
  obtain ⟨w, c3, h3, h⟩ := Dec.bind_ok h
  obtain ⟨rfl, rfl⟩ := get_u32_le_ok h3
  obtain ⟨rfl, rfl⟩ := Dec.pure_ok h
  refine ⟨hlen, ?_, rfl⟩
  rfl

/-- A successful `decode_motion` always carries exactly twenty car records. -/
theorem decode_motion_ok_length {c : ByteCursor} {p : MotionPacket}
    {c' : ByteCursor} (h : decode_motion c = .ok p c') :
    p.cars.length = 20 := by
  unfold decode_motion at h
  obtain ⟨u, c0, -, h⟩ := Dec.bind_ok h
  obtain ⟨hd, c1, -, h⟩ := Dec.bind_ok h
  obtain ⟨recs, c2, h2, h⟩ := Dec.bind_ok h
  have hlen := decode_records_ok_length h2
  obtain ⟨v1, d1, -, h⟩ := Dec.bind_ok h
  obtain ⟨v2, d2, -, h⟩ := Dec.bind_ok h
  obtain ⟨v3, d3, -, h⟩ := Dec.bind_ok h
  obtain ⟨v4, d4, -, h⟩ := Dec.bind_ok h
  obtain ⟨v5, d5, -, h⟩ := Dec.bind_ok h
  obtain ⟨v6, d6, -, h⟩ := Dec.bind_ok h
  obtain ⟨v7, d7, -, h⟩ := Dec.bind_ok h
  obtain ⟨v8, d8, -, h⟩ := Dec.bind_ok h
  obtain ⟨v9, d9, -, h⟩ := Dec.bind_ok h
  obtain ⟨rfl, -⟩ := Dec.pure_ok h
  exact hlen

/-- A successful `decode_setups` always carries exactly twenty setups. -/
theorem decode_setups_ok_length {c : ByteCursor} {p : CarSetupPacket}
    {c' : ByteCursor} (h : decode_setups c = .ok p c') :
    p.setups.length = 20 := by
  unfold decode_setups at h
  obtain ⟨u, c0, -, h⟩ := Dec.bind_ok h
  obtain ⟨hd, c1, -, h⟩ := Dec.bind_ok h
  obtain ⟨recs, c2, h2, h⟩ := Dec.bind_ok h
  have hlen := decode_records_ok_length h2
  obtain ⟨rfl, -⟩ := Dec.pure_ok h
  exact hlen

/-- A successful `decode_statuses` always carries exactly twenty statuses. -/
theorem decode_statuses_ok_length {c : ByteCursor} {p : CarStatusPacket}
    {c' : ByteCursor} (h : decode_statuses c = .ok p c') :
    p.statuses.length = 20 := by
  unfold decode_statuses at h
  obtain ⟨u, c0, -, h⟩ := Dec.bind_ok h
  obtain ⟨hd, c1, -, h⟩ := Dec.bind_ok h
  obtain ⟨recs, c2, h2, h⟩ := Dec.bind_ok h
  have hlen := decode_records_ok_length h2
  obtain ⟨rfl, -⟩ := Dec.pure_ok h
  exact hlen

/-- A successful `LapPacket::decode` always carries exactly twenty laps, and
each lap's validity flag is the `> 1` comparison on the raw byte at relative
offset `23 + 41 * i + 36`. -/
theorem lap_packet_decode_ok {buf : List Nat} {pos : Nat} {p : LapPacket}
    {c' : ByteCursor} (h : LapPacket.decode ⟨buf, pos⟩ = .ok p c') :
    p.laps.length = 20 ∧
      ∀ i (hi : i < p.laps.length),
        (p.laps.get ⟨i, hi⟩).is_lap_valid =
          decide (1 < buf.getD (pos + 23 + 41 * i + 36) 0) := by
  unfold LapPacket.decode at h
  obtain ⟨hd, c1, h1, h⟩ := Dec.bind_ok h
  obtain rfl := packet_header_decode_ok h1
  obtain ⟨recs, c2, h2, h⟩ := Dec.bind_ok h
  have hlen := decode_records_ok_length h2
  have hget := decode_records_get
    (fun _ _ _ _ hr => (decode_lap_record_ok hr).1)
    (fun _ _ _ _ hr => (decode_lap_record_ok hr).2) h2
  obtain ⟨rfl, -⟩ := Dec.pure_ok h
  refine ⟨hlen, ?_⟩
  intro i hi
  exact hget i hi

/-- A successful `ParticipantsPacket::decode` carries exactly as many
participants as the count byte at relative offset 23 (the byte right after
the header) says. -/
theorem participants_packet_decode_ok {buf : List Nat} {pos : Nat}
    {p : ParticipantsPacket} {c' : ByteCursor}
    (h : ParticipantsPacket.decode ⟨buf, pos⟩ = .ok p c') :
    p.participants.length = buf.getD (pos + 23) 0 := by
  unfold ParticipantsPacket.decode at h
  obtain ⟨hd, c1, h1, h⟩ := Dec.bind_ok h
  obtain rfl := packet_header_decode_ok h1
  obtain ⟨count, c2, h2, h⟩ := Dec.bind_ok h
  obtain ⟨-, rfl, rfl⟩ := get_u8_ok h2
  obtain ⟨recs, c3, h3, h⟩ := Dec.bind_ok h
  have hlen := decode_records_ok_length h3
  obtain ⟨rfl, -⟩ := Dec.pure_ok h
  exact hlen

/-! ## Lemmas about the name-decoding loop -/

theorem get_u8_run {buf : List Nat} {pos : Nat} (h : pos < buf.length) :
    get_u8 ⟨buf, pos⟩ = .ok (buf.getD pos 0) ⟨buf, pos + 1⟩ := by
  unfold get_u8
  exact if_pos h

/-- When the first NUL of the field sits at index `i < n`, the name loop
returns exactly the `i` bytes before it and consumes `i + 1` bytes: the NUL
is consumed, and nothing after it is. -/
theorem decode_name_loop_nul :
    ∀ (i n : Nat) (buf : List Nat) (pos : Nat), i < n →
      pos + i < buf.length →
      (∀ j, j < i → buf.getD (pos + j) 0 ≠ 0) →
      buf.getD (pos + i) 0 = 0 →
      decode_name_loop n ⟨buf, pos⟩ =
        .ok ((List.range i).map (fun j => buf.getD (pos + j) 0))
          ⟨buf, pos + i + 1⟩ := by
  intro i
  induction i with
  | zero =>
    intro n buf pos hn hlen hbefore hnul
    obtain ⟨m, rfl⟩ : ∃ m, n = m + 1 := ⟨n - 1, by omega⟩
    unfold decode_name_loop
    rw [Dec.run_bind_eval (get_u8_run (by omega))]
    simp only [List.range_zero, List.map_nil]
    rw [if_pos (by simpa using hnul)]
    rfl
  | succ i ih =>
    intro n buf pos hn hlen hbefore hnul
    obtain ⟨m, rfl⟩ : ∃ m, n = m + 1 := ⟨n - 1, by omega⟩
    unfold decode_name_loop
    rw [Dec.run_bind_eval (get_u8_run (by omega))]
    rw [if_neg (by simpa using hbefore 0 (by omega))]
    have hrec := ih m buf (pos + 1) (by omega) (by omega)
      (fun j hj => by
        have h := hbefore (j + 1) (by omega)
        have e : pos + (j + 1) = pos + 1 + j := by omega
        rw [e] at h
        exact h)
      (by
        have : pos + 1 + i = pos + (i + 1) := by omega
        rw [this]
        exact hnul)
    rw [Dec.run_bind_eval hrec, Dec.run_pure]
    have hcursor : pos + 1 + i + 1 = pos + (i + 1) + 1 := by omega
    have hlist :
        buf.getD pos 0 ::
            (List.range i).map (fun j => buf.getD (pos + 1 + j) 0) =
          (List.range (i + 1)).map (fun j => buf.getD (pos + j) 0) := by
      rw [List.range_succ_eq_map, List.map_cons, List.map_map]
      refine congrArg₂ _ rfl ?_
      refine List.map_congr_left ?_
      intro j hj
      show buf.getD (pos + 1 + j) 0 = buf.getD (pos + (j + 1)) 0
      congr 1
      omega
    rw [hcursor, hlist]

/-- When no NUL occurs in the next `n` bytes, the name loop returns all of
them and consumes exactly `n` bytes, with no error. -/
theorem decode_name_loop_no_nul :
    ∀ (n : Nat) (buf : List Nat) (pos : Nat),
      pos + n ≤ buf.length →
      (∀ j, j < n → buf.getD (pos + j) 0 ≠ 0) →
      decode_name_loop n ⟨buf, pos⟩ =
        .ok ((List.range n).map (fun j => buf.getD (pos + j) 0))
          ⟨buf, pos + n⟩ := by
  intro n
  induction n with
  | zero =>
    intro buf pos hlen hno
    unfold decode_name_loop
    rfl
  | succ n ih =>
    intro buf pos hlen hno
    unfold decode_name_loop
    rw [Dec.run_bind_eval (get_u8_run (by omega))]
    rw [if_neg (by simpa using hno 0 (by omega))]
    have hrec := ih buf (pos + 1) (by omega)
      (fun j hj => by
        have h := hno (j + 1) (by omega)
        have e : pos + (j + 1) = pos + 1 + j := by omega
        rw [e] at h
        exact h)
    rw [Dec.run_bind_eval hrec, Dec.run_pure]
    have hcursor : pos + 1 + n = pos + (n + 1) := by omega
    have hlist :
        buf.getD pos 0 ::
            (List.range n).map (fun j => buf.getD (pos + 1 + j) 0) =
          (List.range (n + 1)).map (fun j => buf.getD (pos + j) 0) := by
      rw [List.range_succ_eq_map, List.map_cons, List.map_map]
      refine congrArg₂ _ rfl ?_
      refine List.map_congr_left ?_
      intro j hj
      show buf.getD (pos + 1 + j) 0 = buf.getD (pos + (j + 1)) 0
      congr 1
      omega
    rw [hcursor, hlist]

/-! ## Lemmas about the packet-type peek -/

theorem set_position_run {c : ByteCursor} {n : Nat} :
    set_position n c = .ok () ⟨c.buf, n⟩ := rfl

theorem Dec.liftE_run {α : Type} {x : Except IoError α} {a : α}
    {c : ByteCursor} (h : x = .ok a) : Dec.liftE x c = .ok a c := by
  subst h
  rfl

/-- A successful peek: when byte 5 exists and carries a valid packet-type
code, `peek_packet_id` returns that type and leaves the cursor at position
0, whatever position it started from. -/
theorem peek_packet_id_run {buf : List Nat} {p : Nat} {t : PacketType}
    (h5 : 5 < buf.length)
    (ht : PacketType.try_from (buf.getD 5 0) = .ok t) :
    Packet.peek_packet_id ⟨buf, p⟩ = .ok t ⟨buf, 0⟩ := by
  unfold Packet.peek_packet_id
  rw [Dec.run_bind_eval (set_position_run)]
  rw [Dec.run_bind_eval (get_u8_run h5)]
  rw [Dec.run_bind_eval (Dec.liftE_run ht)]
  rw [Dec.run_bind_eval (set_position_run)]
  rfl

/-! ## Projections used in the claim statements -/

/-- The number of car records in a motion-decode result, when it succeeded. -/
def motion_cars_len : DRes MotionPacket → Option Nat
  | .ok p _ => some p.cars.length
  | .err _ _ => none

/-- The number of setups in a setup-decode result, when it succeeded. -/
def setups_len : DRes CarSetupPacket → Option Nat
  | .ok p _ => some p.setups.length
  | .err _ _ => none

/-- The number of statuses in a status-decode result, when it succeeded. -/
def statuses_len : DRes CarStatusPacket → Option Nat
  | .ok p _ => some p.statuses.length
  | .err _ _ => none

/-- The number of telemetry records in a telemetry-decode result, when it
succeeded. -/
def telemetry_len : DRes TelemetryPacket → Option Nat
  | .ok p _ => some p.telemetry.length
  | .err _ _ => none

/-- The number of laps in a lap-decode result, when it succeeded. -/
def laps_len : DRes LapPacket → Option Nat
  | .ok p _ => some p.laps.length
  | .err _ _ => none

/-- The number of participants in a participants-decode result, when it
succeeded. -/
def participants_len : DRes ParticipantsPacket → Option Nat
  | .ok p _ => some p.participants.length
  | .err _ _ => none

/-- The button field of a telemetry-decode result, when it succeeded. -/
def telemetry_button : DRes TelemetryPacket → Option Button
  | .ok p _ => some p.button_status
  | .err _ _ => none

/-- The lap-validity flags of a lap-decode result, when it succeeded. -/
def lap_valid_flags : DRes LapPacket → Option (List Bool)
  | .ok p _ => some (p.laps.map (fun l => l.is_lap_valid))
  | .err _ _ => none

/-! ## Forward evaluation lemmas for the codec path -/

theorem Dec.run_bind_err {α β : Type} {m : Dec α} {f : α → Dec β}
    {c : ByteCursor} {e : IoError} {c' : ByteCursor} (hm : m c = .err e c') :
    (m >>= f) c = .err e c' := by
  rw [run_bind, hm]

theorem Dec.liftE_err {α : Type} {x : Except IoError α} {e : IoError}
    {c : ByteCursor} (h : x = .error e) : Dec.liftE x c = .err e c := by
  subst h
  rfl

theorem get_u16_le_run {buf : List Nat} {pos : Nat}
    (h : pos + 1 < buf.length) :
    get_u16_le ⟨buf, pos⟩ =
      .ok (buf.getD pos 0 + 256 * buf.getD (pos + 1) 0) ⟨buf, pos + 2⟩ := by
  unfold get_u16_le
  rw [Dec.run_bind_eval (get_u8_run (by omega))]
  rw [Dec.run_bind_eval (get_u8_run h)]
  rfl

theorem ensure_packet_size_err {expected : Nat} {buf : List Nat} {pos : Nat}
    (h : buf.length - pos < expected) :
    ensure_packet_size expected ⟨buf, pos⟩ =
      .err ⟨.unexpectedEof, "Packet is smaller than its expected size."⟩
        ⟨buf, pos⟩ := by
  unfold ensure_packet_size
  rw [if_pos]
  exact h

theorem ensure_packet_size_run {expected : Nat} {buf : List Nat} {pos : Nat}
    (h : ¬ buf.length - pos < expected) :
    ensure_packet_size expected ⟨buf, pos⟩ = .ok () ⟨buf, pos⟩ := by
  unfold ensure_packet_size
  rw [if_neg]
  exact h

/-- A failed peek: when byte 5 exists but does not carry a valid packet-type
code, `peek_packet_id` fails and leaves the cursor at position 6 — the
`set_position(0)` restore is skipped by the early `?` return. -/
theorem peek_packet_id_err {buf : List Nat} {p : Nat} {e : IoError}
    (h5 : 5 < buf.length)
    (ht : PacketType.try_from (buf.getD 5 0) = .error e) :
    Packet.peek_packet_id ⟨buf, p⟩ = .err e ⟨buf, 6⟩ := by
  unfold Packet.peek_packet_id
  rw [Dec.run_bind_eval (set_position_run)]
  rw [Dec.run_bind_eval (get_u8_run h5)]
  exact Dec.run_bind_err (Dec.liftE_err ht)

deriving instance Fintype for PacketType

/-- Every declared packet-type code converts back to its packet type. -/
theorem packet_type_code_round : ∀ t : PacketType,
    PacketType.try_from t.code = .ok t := by decide

/-- The declared fixed size of each packet type the dispatcher can reach
(`PACKET_SIZE` in `src/nineteen/telemetry.rs` and `src/nineteen/status.rs`). -/
def packet_fixed_size : PacketType → Nat
  | .Telemetry => TELEMETRY_PACKET_SIZE
  | .Status => STATUS_PACKET_SIZE

/-! ## Lengths of the concrete buffers -/

theorem header_bytes_length (t : Nat) : (header_bytes t).length = 23 := by
  simp only [header_bytes, List.length_append, List.length_replicate,
    List.length_cons, List.length_nil]

theorem motion_buffer_length : motion_buffer.length = 1343 := by
  simp only [motion_buffer, List.length_append, header_bytes_length,
    List.length_replicate]

theorem participants_buffer_length : participants_buffer.length = 1104 := by
  simp only [participants_buffer, List.length_append, header_bytes_length,
    List.length_replicate, List.length_cons, List.length_nil]

/-! ## Claim C3 -/

/-- C3 counterexample: the claim says every successfully decoded
Participants packet carries exactly 20 per-car records. But
`ParticipantsPacket::decode` loops `participants_count` times, so the
full-size (1104-byte) Participants packet `participants_buffer`, whose
count byte is 1, decodes successfully to a packet with exactly one
participant record, not 20. -/
theorem decode_records_zero {α : Type} (rec : Dec α) :
    decode_records rec 0 = Pure.pure [] := rfl

theorem decode_records_one {α : Type} (rec : Dec α) :
    decode_records rec 1 = (do
      let x ← rec
      let rest ← decode_records rec 0
      Pure.pure (x :: rest)) := rfl

set_option maxRecDepth 10000 in
theorem participants_single_record_counterexample :
    participants_len (ParticipantsPacket.from_bytes ⟨participants_buffer, 0⟩) =
      some 1 ∧ (1 : Nat) ≠ 20 := by
  have hgate : ParticipantsPacket.from_bytes ⟨participants_buffer, 0⟩ =
      ParticipantsPacket.decode ⟨participants_buffer, 0⟩ := by
    unfold ParticipantsPacket.from_bytes
    unfold from_bytes_eq
    rw [show (⟨participants_buffer, 0⟩ : ByteCursor).remaining = 1104 from by
      simp [ByteCursor.remaining, participants_buffer_length]]
    rw [if_neg (by decide)]
  obtain ⟨hd, hhdr⟩ : ∃ hd, PacketHeader.decode ⟨participants_buffer, 0⟩ =
      .ok hd ⟨participants_buffer, 23⟩ := ⟨_, rfl⟩
  have hcount : get_u8 ⟨participants_buffer, 23⟩ =
      .ok 1 ⟨participants_buffer, 24⟩ := by
    rw [get_u8_run (by rw [participants_buffer_length]; omega)]
    rw [show participants_buffer.getD 23 0 = 1 from by decide]
  obtain ⟨q, hpart⟩ : ∃ q, decode_participant ⟨participants_buffer, 24⟩ =
      .ok q ⟨participants_buffer, 32⟩ := ⟨_, rfl⟩
  have hrecords : decode_participant_records 1 ⟨participants_buffer, 24⟩ =
      .ok [q] ⟨participants_buffer, 32⟩ := by
    unfold decode_participant_records
    rw [decode_records_one, Dec.run_bind_eval hpart, decode_records_zero]
    rfl
  have hdecode : ParticipantsPacket.decode ⟨participants_buffer, 0⟩ =
      .ok (ParticipantsPacket.mk hd [q]) ⟨participants_buffer, 32⟩ := by
    unfold ParticipantsPacket.decode
    rw [Dec.run_bind_eval hhdr, Dec.run_bind_eval hcount,
      Dec.run_bind_eval hrecords]
    rfl
  rw [hgate, hdecode]
  exact ⟨rfl, by decide⟩

/-- C3, amended: a successfully decoded Motion, Lap, Setup, Status or
Telemetry packet always carries exactly 20 per-car records; a successfully
decoded Participants packet instead carries exactly as many records as its
count byte (the byte at offset 23, right after the header) says, which is
20 only when that byte is 20. -/
theorem per_car_record_lengths :
    (∀ c : ByteCursor, motion_cars_len (decode_motion c) = none ∨
      motion_cars_len (decode_motion c) = some 20) ∧
    (∀ c : ByteCursor, laps_len (LapPacket.decode c) = none ∨
      laps_len (LapPacket.decode c) = some 20) ∧
    (∀ c : ByteCursor, setups_len (decode_setups c) = none ∨
      setups_len (decode_setups c) = some 20) ∧
    (∀ c : ByteCursor, statuses_len (decode_statuses c) = none ∨
      statuses_len (decode_statuses c) = some 20) ∧
    (∀ c : ByteCursor, telemetry_len (decode_telemetry c) = none ∨
      telemetry_len (decode_telemetry c) = some 20) ∧
    (∀ c : ByteCursor, participants_len (ParticipantsPacket.decode c) = none ∨
      participants_len (ParticipantsPacket.decode c) =
        some (c.buf.getD (c.pos + 23) 0)) := by
  refine ⟨?_, ?_, ?_, ?_, ?_, ?_⟩
  · intro c
    cases hr : decode_motion c with
    | err e c' => left; simp [motion_cars_len, hr]
    | ok p c' => right; simp [motion_cars_len, decode_motion_ok_length hr]
  · intro c
    obtain ⟨buf, pos⟩ := c
    cases hr : LapPacket.decode ⟨buf, pos⟩ with
    | err e c' => left; simp [laps_len, hr]
    | ok p c' => right; simp [laps_len, (lap_packet_decode_ok hr).1]
  · intro c
    cases hr : decode_setups c with
    | err e c' => left; simp [setups_len, hr]
    | ok p c' => right; simp [setups_len, decode_setups_ok_length hr]
  · intro c
    cases hr : decode_statuses c with
    | err e c' => left; simp [statuses_len, hr]
    | ok p c' => right; simp [statuses_len, decode_statuses_ok_length hr]
  · intro c
    obtain ⟨buf, pos⟩ := c
    cases hr : decode_telemetry ⟨buf, pos⟩ with
    | err e c' => left; simp [telemetry_len, hr]
    | ok p c' => right; simp [telemetry_len, (decode_telemetry_ok hr).1]
  · intro c
    obtain ⟨buf, pos⟩ := c
    cases hr : ParticipantsPacket.decode ⟨buf, pos⟩ with
    | err e c' => left; simp [participants_len, hr]
    | ok p c' => right; simp [participants_len, participants_packet_decode_ok hr]

/-! ## Claim C9 -/

/-- C9: in Lap packet decoding, whenever the decode succeeds, the
`is_lap_valid` flag of the per-car record `i` is exactly the comparison
`raw > 1` on the raw validity byte of that record (the byte at offset
`23 + 41 * i + 36` from the start of the packet); in particular raw bytes 0
and 1 both yield `false`. -/
theorem lap_validity_threshold :
    ∀ (buf : List Nat) (pos : Nat),
      lap_valid_flags (LapPacket.decode ⟨buf, pos⟩) = none ∨
        lap_valid_flags (LapPacket.decode ⟨buf, pos⟩) =
          some ((List.range 20).map
            (fun i => decide (1 < buf.getD (pos + 23 + 41 * i + 36) 0))) := by
  intro buf pos
  cases hr : LapPacket.decode ⟨buf, pos⟩ with
  | err e c' => left; simp [lap_valid_flags, hr]
  | ok p c' =>
    right
    obtain ⟨hlen, hget⟩ := lap_packet_decode_ok hr
    simp only [hr, lap_valid_flags, Option.some.injEq]
    apply List.ext_get
    · simp [hlen]
    · intro i h1 h2
      have hi : i < p.laps.length := by simpa using h1
      simp only [List.get_map, List.get_range]
      exact hget i hi

/-! ## Claim C2 -/

/-- C2 counterexample: the claim says decoding one driver-name field always
advances the cursor by exactly the fixed 40-byte width, with the bytes after
the NUL still consumed. But on the 41-byte field `player_name_buffer`
(`"Player"`, a NUL at index 6, 33 filler bytes, then the byte 5),
`decode_name` leaves the cursor at position 7 — the name bytes plus the NUL
— not at 40; accordingly the field decoded next reads the filler byte 0 at
offset 7, not the byte 5 at offset 40. -/
theorem decode_name_stops_at_nul_counterexample :
    ParticipantsPacket.decode_name ⟨player_name_buffer, 0⟩ =
      .ok [80, 108, 97, 121, 101, 114] ⟨player_name_buffer, 7⟩ ∧
    (7 : Nat) ≠ 40 ∧
    get_u8 ⟨player_name_buffer, 7⟩ = .ok 0 ⟨player_name_buffer, 8⟩ ∧
    player_name_buffer.getD 40 0 = 5 := by
  refine ⟨rfl, by decide, rfl, by decide⟩

/-- C2, amended: when the first NUL of a driver-name field sits at index
`i < 40`, `decode_name` returns exactly the `i` bytes before the NUL, but
advances the cursor by `i + 1` bytes — the name and its NUL — rather than
by the fixed 40-byte width; the remaining `40 - i - 1` bytes of the field
are left unconsumed, and the next field is decoded from the offset right
after the NUL. -/
theorem decode_name_consumes_to_nul :
    ∀ (buf : List Nat) (pos i : Nat), i < 40 →
      pos + i < buf.length →
      (∀ j, j < i → buf.getD (pos + j) 0 ≠ 0) →
      buf.getD (pos + i) 0 = 0 →
      ParticipantsPacket.decode_name ⟨buf, pos⟩ =
        .ok ((List.range i).map (fun j => buf.getD (pos + j) 0))
          ⟨buf, pos + i + 1⟩ :=
  fun buf pos i h1 h2 h3 h4 => decode_name_loop_nul i 40 buf pos h1 h2 h3 h4

/-- Witness for the amended C2 at a concrete input: on
`player_name_buffer` the NUL sits at index 6 and `decode_name` returns the
six name bytes with the cursor moved 7 bytes. -/
theorem decode_name_consumes_to_nul_witness :
    ParticipantsPacket.decode_name ⟨player_name_buffer, 0⟩ =
      .ok ((List.range 6).map (fun j => player_name_buffer.getD (0 + j) 0))
        ⟨player_name_buffer, 0 + 6 + 1⟩ :=
  decode_name_consumes_to_nul player_name_buffer 0 6 (by decide) (by decide)
    (by decide) (by decide)

/-! ## Claim C10 -/

/-- C10: when a driver-name field contains no NUL anywhere in its 40-byte
width, `decode_name` consumes exactly 40 bytes and returns all 40
characters; the missing terminator is silently accepted — the result is a
success, never an error. -/
theorem decode_name_no_nul_reads_full_width :
    ∀ (buf : List Nat) (pos : Nat),
      pos + 40 ≤ buf.length →
      (∀ j, j < 40 → buf.getD (pos + j) 0 ≠ 0) →
      ParticipantsPacket.decode_name ⟨buf, pos⟩ =
        .ok ((List.range 40).map (fun j => buf.getD (pos + j) 0))
          ⟨buf, pos + 40⟩ :=
  fun buf pos h1 h2 => decode_name_loop_no_nul 40 buf pos h1 h2

/-- Witness for C10 at a concrete input: a field of 45 bytes of value 7 has
no NUL in its first 40 bytes, and `decode_name` returns 40 bytes with the
cursor moved exactly 40. -/
theorem decode_name_no_nul_reads_full_width_witness :
    ParticipantsPacket.decode_name ⟨List.replicate 45 7, 0⟩ =
      .ok ((List.range 40).map (fun j => (List.replicate 45 7).getD (0 + j) 0))
        ⟨List.replicate 45 7, 0 + 40⟩ :=
  decode_name_no_nul_reads_full_width (List.replicate 45 7) 0 (by decide)
    (by decide)

/-! ## Claim C7 -/

/-- C7 counterexample: the claim says unrecognized bits in the button word
are ignored and do not affect which recognized buttons are reported. But on
the wire value `0x80000001` — the recognized `CROSS_OR_A` bit together with
the unrecognized bit 31 — `Button::from_bits` returns `None` and the decoder
falls back to `Button::NONE`, so the recognized pressed button is dropped. -/
theorem button_unknown_bit_counterexample :
    button_status_of 0x80000001 = Button.NONE ∧
    0x80000001 &&& Button.CROSS_OR_A.bits = Button.CROSS_OR_A.bits ∧
    Button.NONE.bits &&& Button.CROSS_OR_A.bits = 0 := by
  refine ⟨rfl, by decide, by decide⟩

/-- C7, amended: the trailing `u32` of a Telemetry packet is decoded through
`Button::from_bits` with a fallback to `Button::NONE`: a wire value with no
bit outside the fifteen recognized buttons decodes to exactly its own bits,
and a wire value with any unrecognized bit set decodes to `NONE` — no error
in either case, but the recognized bits are dropped rather than kept when an
unrecognized bit is present. The second part ties the decoded field to the
four bytes at offset 1343 of the packet. -/
theorem button_bitmask_zeroes_on_unknown_bits :
    (∀ w : Nat, button_status_of w =
      if w &&& 0xFFFF8000 = 0 then ⟨w⟩ else Button.NONE) ∧
    (∀ (buf : List Nat) (pos : Nat),
      telemetry_button (decode_telemetry ⟨buf, pos⟩) = none ∨
      telemetry_button (decode_telemetry ⟨buf, pos⟩) =
        some (button_status_of (u32_le_at buf (pos + 1343)))) := by
  constructor
  · intro w
    have hmask : (0xFFFFFFFF ^^^ Button.all.bits) = 0xFFFF8000 := by decide
    unfold button_status_of Button.from_bits
    rw [hmask]
    by_cases hw : w &&& 0xFFFF8000 = 0
    · rw [if_pos hw, if_pos hw]
    · rw [if_neg hw, if_neg hw]
  · intro buf pos
    cases hr : decode_telemetry ⟨buf, pos⟩ with
    | err e c' => left; simp [telemetry_button, hr]
    | ok p c' =>
      right
      simp [telemetry_button, hr, (decode_telemetry_ok hr).2.1]

/-! ## Claim C8 -/

/-- C8 counterexample: the claim says peeking the packet-type discriminant
never mutates the buffer position. But on a six-byte buffer whose byte 5 is
0 — not a valid packet-type code in this source — the peek fails and leaves
the cursor at position 6: the `set_position(0)` restore is skipped by the
early return, so the position seen by the caller has changed from 0 to 6. -/
theorem peek_moves_cursor_counterexample :
    Packet.peek_packet_id ⟨List.replicate 6 0, 0⟩ =
      .err ⟨.invalidData, "Failed to decode packet id."⟩
        ⟨List.replicate 6 0, 6⟩ ∧
    (6 : Nat) ≠ 0 := by
  refine ⟨rfl, by decide⟩

/-- C8, amended: when the buffer has at least 6 bytes and byte 5 carries a
valid packet-type code, the peek succeeds, never touches the buffer
contents, and always leaves the cursor at position 0 — so peeking twice
from the start of an untouched buffer returns the same packet type both
times with the position back at its starting point 0. (When the peek is
entered at a nonzero position, the final position is still 0, not the
original one; and when byte 5 is invalid the cursor is left at 6, per the
counterexample.) -/
theorem peek_idempotent_on_valid_type :
    ∀ (buf : List Nat) (p : Nat) (t : PacketType), 5 < buf.length →
      PacketType.try_from (buf.getD 5 0) = .ok t →
      Packet.peek_packet_id ⟨buf, p⟩ = .ok t ⟨buf, 0⟩ ∧
      (do
        let a ← Packet.peek_packet_id
        let b ← Packet.peek_packet_id
        Pure.pure (a, b) : Dec (PacketType × PacketType)) ⟨buf, 0⟩ =
        .ok (t, t) ⟨buf, 0⟩ := by
  intro buf p t h5 ht
  have h1 := peek_packet_id_run (p := p) h5 ht
  have h0 := peek_packet_id_run (p := 0) h5 ht
  refine ⟨h1, ?_⟩
  rw [Dec.run_bind_eval h0, Dec.run_bind_eval h0]
  rfl

/-- Witness for the amended C8 at a concrete input: a six-byte buffer with
byte 5 equal to 6 (the Telemetry code), peeked from position 3 and twice
from position 0. -/
theorem peek_idempotent_on_valid_type_witness :
    Packet.peek_packet_id ⟨[0, 0, 0, 0, 0, 6], 3⟩ =
      .ok .Telemetry ⟨[0, 0, 0, 0, 0, 6], 0⟩ ∧
    (do
      let a ← Packet.peek_packet_id
      let b ← Packet.peek_packet_id
      Pure.pure (a, b) : Dec (PacketType × PacketType)) ⟨[0, 0, 0, 0, 0, 6], 0⟩ =
      .ok (.Telemetry, .Telemetry) ⟨[0, 0, 0, 0, 0, 6], 0⟩ :=
  peek_idempotent_on_valid_type [0, 0, 0, 0, 0, 6] 3 .Telemetry (by decide)
    (by decide)

/-! ## Further buffer-length lemmas -/

theorem repeat_block_length (block : List Nat) :
    ∀ n : Nat, (repeat_block block n).length = block.length * n := by
  intro n
  induction n with
  | zero => simp [repeat_block]
  | succ n ih =>
    simp only [repeat_block, List.length_append, ih]
    ring

theorem telemetry_buffer_length : telemetry_buffer.length = 1347 := by
  simp only [telemetry_buffer, List.length_append, header_bytes_length,
    List.length_replicate]

theorem status_buffer_length : status_buffer.length = 1143 := by
  simp only [status_buffer, List.length_append, header_bytes_length,
    repeat_block_length]
  rw [show status_record_bytes.length = 56 from by
    simp only [status_record_bytes, List.length_append,
      List.length_replicate, List.length_cons, List.length_nil]]

/-! ## Claim C6 -/

/-- C6: on any buffer of at least two bytes whose leading little-endian
16-bit version tag differs from 2019, `F1Codec::decode` fails with the
unsupported-protocol-version error ("Unknown packet format ...",
`ErrorKind::InvalidData`) — it neither returns the need-more-data sentinel
nor a decoded packet, and the buffer is left untouched. -/
theorem codec_unknown_version_errors :
    ∀ buf : List Nat, 2 ≤ buf.length →
      buf.getD 0 0 + 256 * buf.getD 1 0 ≠ 2019 →
      codec_decode buf =
        (.error ⟨.invalidData,
          "Unknown packet format " ++
            toString (buf.getD 0 0 + 256 * buf.getD 1 0) ++ "."⟩, buf) := by
  intro buf h2 hver
  unfold codec_decode
  rw [if_neg (show ¬ (ByteCursor.remaining ⟨buf, 0⟩ < 2) from by
    simp only [ByteCursor.remaining]
    omega)]
  simp only [get_u16_le_run (show 0 + 1 < buf.length from by omega)]
  rw [if_neg hver]

/-- Witness for C6 at a concrete input: version tag 2020. -/
theorem codec_unknown_version_errors_witness :
    codec_decode [228, 7, 0, 0, 0, 6] =
      (.error ⟨.invalidData,
        "Unknown packet format " ++
          toString (([228, 7, 0, 0, 0, 6] : List Nat).getD 0 0 +
            256 * ([228, 7, 0, 0, 0, 6] : List Nat).getD 1 0) ++ "."⟩,
        [228, 7, 0, 0, 0, 6]) :=
  codec_unknown_version_errors [228, 7, 0, 0, 0, 6] (by decide) (by decide)

/-! ## Claim C1 -/

/-- C1: for each packet type the source declares (Telemetry with fixed size
1347 and Status with fixed size 1143), feeding `F1Codec::decode` a buffer
that starts with the supported version tag 2019, carries that type's code
at byte offset 5, and holds fewer bytes than the declared fixed size,
returns `Ok(None)` — never a hard error and never a packet — and leaves the
buffer untouched, so the caller can append bytes and retry. -/
theorem codec_short_packet_returns_none :
    ∀ (t : PacketType) (buf : List Nat),
      buf.getD 0 0 + 256 * buf.getD 1 0 = 2019 →
      buf.getD 5 0 = t.code →
      5 < buf.length →
      buf.length < packet_fixed_size t →
      codec_decode buf = (.ok none, buf) := by
  intro t buf hver ht h5 hsize
  unfold codec_decode
  rw [if_neg (show ¬ (ByteCursor.remaining ⟨buf, 0⟩ < 2) from by
    simp only [ByteCursor.remaining]
    omega)]
  simp only [get_u16_le_run (show 0 + 1 < buf.length from by omega)]
  rw [if_pos hver]
  by_cases hsmall : ByteCursor.remaining ⟨buf, 2⟩ < Packet.buffer_size
  · have hfb : Packet.from_bytes ⟨buf, 2⟩ =
        .err ⟨.unexpectedEof, "Packet is smaller than its expected size."⟩
          ⟨buf, 2⟩ := by
      unfold Packet.from_bytes from_bytes_min
      rw [if_pos hsmall]
    simp only [hfb]
  · have hpeek : Packet.peek_packet_id ⟨buf, 2⟩ = .ok t ⟨buf, 0⟩ := by
      refine peek_packet_id_run h5 ?_
      rw [ht]
      exact packet_type_code_round t
    have hdec : Packet.decode ⟨buf, 2⟩ =
        .err ⟨.unexpectedEof, "Packet is smaller than its expected size."⟩
          ⟨buf, 0⟩ := by
      unfold Packet.decode
      rw [Dec.run_bind_eval hpeek]
      cases t with
      | Telemetry =>
        refine Dec.run_bind_err ?_
        unfold TelemetryPacket.from_bytes decode_telemetry
        refine Dec.run_bind_err (ensure_packet_size_err ?_)
        simp only [packet_fixed_size] at hsize
        omega
      | Status =>
        refine Dec.run_bind_err ?_
        unfold CarStatusPacket.from_bytes decode_statuses
        refine Dec.run_bind_err (ensure_packet_size_err ?_)
        simp only [packet_fixed_size] at hsize
        omega
    have hfb : Packet.from_bytes ⟨buf, 2⟩ =
        .err ⟨.unexpectedEof, "Packet is smaller than its expected size."⟩
          ⟨buf, 0⟩ := by
      unfold Packet.from_bytes from_bytes_min
      rw [if_neg hsmall]
      exact hdec
    simp only [hfb]

/-- A short Telemetry buffer: supported version tag, type byte 6, 73 bytes
in total — far fewer than the declared 1347. -/
def short_telemetry_buffer : List Nat :=
  [227, 7, 0, 0, 0, 6] ++ List.replicate 67 0

/-- Witness for C1 at a concrete input: the 73-byte `short_telemetry_buffer`
yields the need-more-data sentinel with the buffer intact. -/
theorem codec_short_packet_returns_none_witness :
    codec_decode short_telemetry_buffer = (.ok none, short_telemetry_buffer) :=
  codec_short_packet_returns_none .Telemetry short_telemetry_buffer
    (by decide) (by decide) (by decide) (by decide)

/-! ## Claim C4 -/

/-- C4 counterexample: the claim says discriminant values 0 through 7 all
dispatch to a packet decoder (0 being Motion). But on `motion_buffer` — a
full-size, well-formed 1343-byte Motion packet with version tag 2019 and
type byte 0 — decoding fails hard with the invalid-enum-value error from
`PacketType::try_from`, because the enum in this source accepts only the
codes 6 and 7. -/
theorem packet_type_zero_rejected_counterexample :
    codec_decode motion_buffer =
      (.error ⟨.invalidData, "Failed to decode packet id."⟩, motion_buffer) := by
  have hlen := motion_buffer_length
  unfold codec_decode
  rw [if_neg (show ¬ (ByteCursor.remaining ⟨motion_buffer, 0⟩ < 2) from by
    simp only [ByteCursor.remaining]
    omega)]
  simp only [get_u16_le_run (show 0 + 1 < motion_buffer.length from by omega)]
  rw [if_pos (by decide)]
  have hfb : Packet.from_bytes ⟨motion_buffer, 2⟩ =
      Packet.decode ⟨motion_buffer, 2⟩ := by
    unfold Packet.from_bytes from_bytes_min
    rw [if_neg (show ¬ (ByteCursor.remaining ⟨motion_buffer, 2⟩ <
        Packet.buffer_size) from by
      simp only [ByteCursor.remaining, Packet.buffer_size]
      omega)]
  have hpeek : Packet.peek_packet_id ⟨motion_buffer, 2⟩ =
      .err ⟨.invalidData, "Failed to decode packet id."⟩
        ⟨motion_buffer, 6⟩ := by
    refine peek_packet_id_err (by omega) ?_
    rw [show motion_buffer.getD 5 0 = 0 from by decide]
    rfl
  have hdec : Packet.decode ⟨motion_buffer, 2⟩ =
      .err ⟨.invalidData, "Failed to decode packet id."⟩ ⟨motion_buffer, 6⟩ := by
    unfold Packet.decode
    exact Dec.run_bind_err hpeek
  simp only [hfb, hdec]

set_option maxRecDepth 10000 in
/-- C4, amended: the packet-type discriminant is the `u8` at byte offset 5;
in this source only the values 6 (Telemetry) and 7 (Status) are accepted —
6 dispatches to the telemetry decoder and 7 to the status decoder — and
every other 8-bit value (0 through 5 included) fails with the
invalid-enum-value error. -/
theorem packet_type_discriminant_dispatch :
    (∀ b : Fin 256, PacketType.try_from b.val =
      if b.val = 6 then .ok .Telemetry
      else if b.val = 7 then .ok .Status
      else .error ⟨.invalidData, "Failed to decode packet id."⟩) ∧
    (∀ (buf : List Nat) (p : Nat), 5 < buf.length → buf.getD 5 0 = 6 →
      Packet.decode ⟨buf, p⟩ =
        (do
          let q ← TelemetryPacket.from_bytes
          Pure.pure (Packet.Telemetry q) : Dec Packet) ⟨buf, 0⟩) ∧
    (∀ (buf : List Nat) (p : Nat), 5 < buf.length → buf.getD 5 0 = 7 →
      Packet.decode ⟨buf, p⟩ =
        (do
          let q ← CarStatusPacket.from_bytes
          Pure.pure (Packet.Status q) : Dec Packet) ⟨buf, 0⟩) := by
  refine ⟨by decide, ?_, ?_⟩
  · intro buf p h5 hb
    unfold Packet.decode
    rw [Dec.run_bind_eval (peek_packet_id_run h5 (by rw [hb]; rfl))]
  · intro buf p h5 hb
    unfold Packet.decode
    rw [Dec.run_bind_eval (peek_packet_id_run h5 (by rw [hb]; rfl))]

/-- Witness for the amended C4 at concrete inputs: a full Telemetry buffer
(type byte 6) and a full Status buffer (type byte 7), both entered at
position 2 as the codec does. -/
theorem packet_type_discriminant_dispatch_witness :
    Packet.decode ⟨telemetry_buffer, 2⟩ =
      (do
        let q ← TelemetryPacket.from_bytes
        Pure.pure (Packet.Telemetry q) : Dec Packet) ⟨telemetry_buffer, 0⟩ ∧
    Packet.decode ⟨status_buffer, 2⟩ =
      (do
        let q ← CarStatusPacket.from_bytes
        Pure.pure (Packet.Status q) : Dec Packet) ⟨status_buffer, 0⟩ :=
  ⟨packet_type_discriminant_dispatch.2.1 telemetry_buffer 2
      (by rw [telemetry_buffer_length]; omega) (by decide),
    packet_type_discriminant_dispatch.2.2 status_buffer 2
      (by rw [status_buffer_length]; omega) (by decide)⟩

/-! ## Claim C5 -/

/-- Boolean check, at one input byte, that an enum decoder is exact there: a
successful decode returns a variant whose declared code is the input, and a
failed decode carries exactly the decoder's invalid-enum-value error. -/
def enum_scan {β E : Type} [DecidableEq β] (tf : β → Except IoError E)
    (cd : E → β) (msg : IoError) (inj : Nat → β) (b : Nat) : Bool :=
  match tf (inj b) with
  | .ok d => decide (cd d = inj b)
  | .error m => decide (m = msg)

/-- If `enum_scan` holds on every byte below 256, every 8-bit input either is
the declared code of some variant or is rejected with exactly the decoder's
invalid-enum-value error. -/
theorem enum_scan_spec {β E : Type} [DecidableEq β] (tf : β → Except IoError E)
    (cd : E → β) (msg : IoError) (inj : Nat → β)
    (hscan : ∀ i : Fin 256, enum_scan tf cd msg inj i.val = true)
    (b : Fin 256) :
    (∃ d, cd d = inj b.val) ∨ tf (inj b.val) = .error msg := by
  have h := hscan b
  cases htf : tf (inj b.val) with
  | ok d =>
    simp only [enum_scan, htf, decide_eq_true_eq] at h
    exact Or.inl ⟨d, h⟩
  | error m =>
    simp only [enum_scan, htf, decide_eq_true_eq] at h
    exact Or.inr (by rw [h])

/-- If every declared code round-trips through the decoder, then decoding a
declared code succeeds with exactly the declaring variant and no other. -/
theorem try_from_ok_iff {β E : Type} {tf : β → Except IoError E} {cd : E → β}
    (hA : ∀ d, tf (cd d) = .ok d) (d e : E) :
    tf (cd d) = .ok e ↔ d = e := by
  rw [hA d]
  constructor
  · intro h
    injection h
  · intro h
    rw [h]

/-- Variant of `enum_scan` for a decoder whose match table is partial over
its enum, so that a variant's declared code is an `Option`. -/
def enum_scan_part {β E : Type} [DecidableEq β] (tf : β → Except IoError E)
    (cd : E → Option β) (msg : IoError) (inj : Nat → β) (b : Nat) : Bool :=
  match tf (inj b) with
  | .ok d => decide (cd d = some (inj b))
  | .error m => decide (m = msg)

/-- Variant of `enum_scan_spec` for a decoder whose match table is partial
over its enum. -/
theorem enum_scan_part_spec {β E : Type} [DecidableEq β]
    (tf : β → Except IoError E) (cd : E → Option β) (msg : IoError)
    (inj : Nat → β)
    (hscan : ∀ i : Fin 256, enum_scan_part tf cd msg inj i.val = true)
    (b : Fin 256) :
    (∃ d, cd d = some (inj b.val)) ∨ tf (inj b.val) = .error msg := by
  have h := hscan b
  cases htf : tf (inj b.val) with
  | ok d =>
    simp only [enum_scan_part, htf, decide_eq_true_eq] at h
    exact Or.inl ⟨d, h⟩
  | error m =>
    simp only [enum_scan_part, htf, decide_eq_true_eq] at h
    exact Or.inr (by rw [h])

/-- A computation known to yield `ok d` equals `ok e` exactly when the
payloads match. -/
theorem except_ok_iff {E α : Type} {x : Except α E} {d e : E}
    (hx : x = .ok d) : (x = .ok e ↔ d = e) := by
  rw [hx]
  constructor
  · intro h
    injection h
  · intro h
    rw [h]

set_option maxRecDepth 10000 in
/-- The per-byte exactness scan of `Flag.try_from`, checked on all 256
byte values. -/
theorem scan_Flag : ∀ i : Fin 256,
    enum_scan Flag.try_from Flag.code
      ⟨.invalidData, "Failed to decode flag."⟩ i8_of_byte i.val = true := by
  decide

set_option maxRecDepth 10000 in
/-- The per-byte exactness scan of `Driver.try_from`, checked on all 256
byte values. -/
theorem scan_Driver : ∀ i : Fin 256,
    enum_scan Driver.try_from Driver.code
      ⟨.invalidData, "Failed to decode driver."⟩ (fun n => n) i.val = true := by
  decide

set_option maxRecDepth 10000 in
/-- The per-byte exactness scan of `Team.try_from`, checked on all 256
byte values. -/
theorem scan_Team : ∀ i : Fin 256,
    enum_scan Team.try_from Team.code
      ⟨.invalidData, "Failed to decode team."⟩ (fun n => n) i.val = true := by
  decide

set_option maxRecDepth 10000 in
/-- The per-byte exactness scan of `Nationality.try_from`, checked on all 256
byte values. -/
theorem scan_Nationality : ∀ i : Fin 256,
    enum_scan Nationality.try_from Nationality.code
      ⟨.invalidData, "Failed to decode nationality."⟩ (fun n => n) i.val = true := by
  decide

set_option maxRecDepth 10000 in
/-- The per-byte exactness scan of `Controller.try_from`, checked on all 256
byte values. -/
theorem scan_Controller : ∀ i : Fin 256,
    enum_scan Controller.try_from Controller.code
      ⟨.invalidData, "Failed to decode controller."⟩ (fun n => n) i.val = true := by
  decide

set_option maxRecDepth 10000 in
/-- The per-byte exactness scan of `UdpSetting.try_from`, checked on all 256
byte values. -/
theorem scan_UdpSetting : ∀ i : Fin 256,
    enum_scan UdpSetting.try_from UdpSetting.code
      ⟨.invalidData, "Failed to decode UDP setting."⟩ (fun n => n) i.val = true := by
  decide

set_option maxRecDepth 10000 in
/-- The per-byte exactness scan of `DriverStatus.try_from`, checked on all 256
byte values. -/
theorem scan_DriverStatus : ∀ i : Fin 256,
    enum_scan DriverStatus.try_from DriverStatus.code
      ⟨.invalidData, "Failed to decode driver status."⟩ (fun n => n) i.val = true := by
  decide

set_option maxRecDepth 10000 in
/-- The per-byte exactness scan of `PitStatus.try_from`, checked on all 256
byte values. -/
theorem scan_PitStatus : ∀ i : Fin 256,
    enum_scan PitStatus.try_from PitStatus.code
      ⟨.invalidData, "Failed to decode pit status."⟩ (fun n => n) i.val = true := by
  decide

set_option maxRecDepth 10000 in
/-- The per-byte exactness scan of `ResultStatus.try_from`, checked on all 256
byte values. -/
theorem scan_ResultStatus : ∀ i : Fin 256,
    enum_scan ResultStatus.try_from ResultStatus.code
      ⟨.invalidData, "Failed to decode result status."⟩ (fun n => n) i.val = true := by
  decide

set_option maxRecDepth 10000 in
/-- The per-byte exactness scan of `Sector.try_from`, checked on all 256
byte values. -/
theorem scan_Sector : ∀ i : Fin 256,
    enum_scan Sector.try_from Sector.code
      ⟨.invalidData, "Failed to decode sector."⟩ (fun n => n) i.val = true := by
  decide

set_option maxRecDepth 10000 in
/-- The per-byte exactness scan of `Gear.try_from`, checked on all 256
byte values. -/
theorem scan_Gear : ∀ i : Fin 256,
    enum_scan Gear.try_from Gear.code
      ⟨.invalidData, "Failed to decode gear."⟩ i8_of_byte i.val = true := by
  decide

set_option maxRecDepth 10000 in
/-- The per-byte exactness scan of `Surface.try_from`, checked on all 256
byte values. -/
theorem scan_Surface : ∀ i : Fin 256,
    enum_scan Surface.try_from Surface.code
      ⟨.invalidData, "Failed to decode surface."⟩ (fun n => n) i.val = true := by
  decide

set_option maxRecDepth 10000 in
/-- The per-byte exactness scan of `TractionControl.try_from`, checked on all 256
byte values. -/
theorem scan_TractionControl : ∀ i : Fin 256,
    enum_scan TractionControl.try_from TractionControl.code
      ⟨.invalidData, "Failed to decode transaction control."⟩ (fun n => n) i.val = true := by
  decide

set_option maxRecDepth 10000 in
/-- The per-byte exactness scan of `FuelMix.try_from`, checked on all 256
byte values. -/
theorem scan_FuelMix : ∀ i : Fin 256,
    enum_scan FuelMix.try_from FuelMix.code
      ⟨.invalidData, "Failed to decode fuel mix."⟩ (fun n => n) i.val = true := by
  decide

set_option maxRecDepth 10000 in
/-- The per-byte exactness scan of `DrsSetting.try_from`, checked on all 256
byte values. -/
theorem scan_DrsSetting : ∀ i : Fin 256,
    enum_scan DrsSetting.try_from DrsSetting.code
      ⟨.invalidData, "Failed to decode DRS status."⟩ i8_of_byte i.val = true := by
  decide

set_option maxRecDepth 10000 in
/-- The per-byte exactness scan of `PhysicalTyreCompound.try_from`, checked on all 256
byte values. -/
theorem scan_PhysicalTyreCompound : ∀ i : Fin 256,
    enum_scan_part PhysicalTyreCompound.try_from PhysicalTyreCompound.code
      ⟨.invalidData, "Failed to decode physical tyre compound."⟩ (fun n => n) i.val = true := by
  decide

set_option maxRecDepth 10000 in
/-- The per-byte exactness scan of `VisualTyreCompound.try_from`, checked on all 256
byte values. -/
theorem scan_VisualTyreCompound : ∀ i : Fin 256,
    enum_scan_part VisualTyreCompound.try_from VisualTyreCompound.code
      ⟨.invalidData, "Failed to decode visual tyre compound."⟩ (fun n => n) i.val = true := by
  decide

set_option maxRecDepth 10000 in
/-- The per-byte exactness scan of `ErsDeployMode.try_from`, checked on all 256
byte values. -/
theorem scan_ErsDeployMode : ∀ i : Fin 256,
    enum_scan ErsDeployMode.try_from ErsDeployMode.code
      ⟨.invalidData, "Failed to decode ERS deployment mode."⟩ (fun n => n) i.val = true := by
  decide

set_option maxRecDepth 10000 in
/-- The per-byte exactness scan of `Weather.try_from`, checked on all 256
byte values. -/
theorem scan_Weather : ∀ i : Fin 256,
    enum_scan Weather.try_from Weather.code
      ⟨.invalidData, "Failed to decode weather."⟩ (fun n => n) i.val = true := by
  decide

set_option maxRecDepth 10000 in
/-- The per-byte exactness scan of `SessionKind.try_from`, checked on all 256
byte values. -/
theorem scan_SessionKind : ∀ i : Fin 256,
    enum_scan SessionKind.try_from SessionKind.code
      ⟨.invalidData, "Failed to decode session."⟩ (fun n => n) i.val = true := by
  decide

set_option maxRecDepth 10000 in
/-- The per-byte exactness scan of `Track.try_from`, checked on all 256
byte values. -/
theorem scan_Track : ∀ i : Fin 256,
    enum_scan Track.try_from Track.code
      ⟨.invalidData, "Failed to decode track."⟩ i8_of_byte i.val = true := by
  decide

set_option maxRecDepth 10000 in
/-- The per-byte exactness scan of `Formula.try_from`, checked on all 256
byte values. -/
theorem scan_Formula : ∀ i : Fin 256,
    enum_scan Formula.try_from Formula.code
      ⟨.invalidData, "Failed to decode formula."⟩ (fun n => n) i.val = true := by
  decide

set_option maxRecDepth 10000 in
/-- The per-byte exactness scan of `SafetyCar.try_from`, checked on all 256
byte values. -/
theorem scan_SafetyCar : ∀ i : Fin 256,
    enum_scan SafetyCar.try_from SafetyCar.code
      ⟨.invalidData, "Failed to decode safety car."⟩ (fun n => n) i.val = true := by
  decide

set_option maxRecDepth 10000 in
set_option maxHeartbeats 4000000 in
/-- C5: for every enumerated field decoder with a closed code set — Flag,
Driver, Team, Nationality, Controller, UdpSetting, DriverStatus, PitStatus,
ResultStatus, Sector, Gear and Surface, the car-status decoders
TractionControl, FuelMix, DrsSetting, PhysicalTyreCompound,
VisualTyreCompound and ErsDeployMode, and the session `TryFrom` impls
Weather, SessionKind, Track, Formula and SafetyCar — and for every 8-bit
input value: each declared code decodes to exactly its own variant (and to
no other variant: the two-sided equivalence states uniqueness), and every
8-bit value that is not a declared code fails with the decoder's
invalid-enum-value error instead of yielding a default. Flag, Gear,
DrsSetting and Track read a signed `i8`, so their 8-bit inputs pass through
`i8_of_byte`. The two tyre-compound match tables are partial over their
enums, so there a variant's declared code is an `Option` and the round-trip
and uniqueness parts quantify over the variants that have one. -/
theorem enum_decoders_exact :
    ((∀ f : Flag, Flag.try_from (Flag.code f) = .ok f) ∧
      (∀ b : Fin 256, (∃ f, Flag.code f = i8_of_byte b.val) ∨
        Flag.try_from (i8_of_byte b.val) =
          .error ⟨.invalidData, "Failed to decode flag."⟩) ∧
      (∀ f g : Flag, Flag.try_from (Flag.code f) = .ok g ↔ f = g)) ∧
    ((∀ d : Driver, Driver.try_from (Driver.code d) = .ok d) ∧
      (∀ b : Fin 256, (∃ d, Driver.code d = b.val) ∨
        Driver.try_from b.val =
          .error ⟨.invalidData, "Failed to decode driver."⟩) ∧
      (∀ d e : Driver, Driver.try_from (Driver.code d) = .ok e ↔ d = e)) ∧
    ((∀ t : Team, Team.try_from (Team.code t) = .ok t) ∧
      (∀ b : Fin 256, (∃ t, Team.code t = b.val) ∨
        Team.try_from b.val =
          .error ⟨.invalidData, "Failed to decode team."⟩) ∧
      (∀ t u : Team, Team.try_from (Team.code t) = .ok u ↔ t = u)) ∧
    ((∀ n : Nationality, Nationality.try_from (Nationality.code n) = .ok n) ∧
      (∀ b : Fin 256, (∃ n, Nationality.code n = b.val) ∨
        Nationality.try_from b.val =
          .error ⟨.invalidData, "Failed to decode nationality."⟩) ∧
      (∀ n m : Nationality,
        Nationality.try_from (Nationality.code n) = .ok m ↔ n = m)) ∧
    ((∀ c : Controller, Controller.try_from (Controller.code c) = .ok c) ∧
      (∀ b : Fin 256, (∃ c, Controller.code c = b.val) ∨
        Controller.try_from b.val =
          .error ⟨.invalidData, "Failed to decode controller."⟩) ∧
      (∀ c d : Controller,
        Controller.try_from (Controller.code c) = .ok d ↔ c = d)) ∧
    ((∀ u : UdpSetting, UdpSetting.try_from (UdpSetting.code u) = .ok u) ∧
      (∀ b : Fin 256, (∃ u, UdpSetting.code u = b.val) ∨
        UdpSetting.try_from b.val =
          .error ⟨.invalidData, "Failed to decode UDP setting."⟩) ∧
      (∀ u v : UdpSetting,
        UdpSetting.try_from (UdpSetting.code u) = .ok v ↔ u = v)) ∧
    ((∀ d : DriverStatus, DriverStatus.try_from (DriverStatus.code d) = .ok d) ∧
      (∀ b : Fin 256, (∃ d, DriverStatus.code d = b.val) ∨
        DriverStatus.try_from b.val =
          .error ⟨.invalidData, "Failed to decode driver status."⟩) ∧
      (∀ d e : DriverStatus,
        DriverStatus.try_from (DriverStatus.code d) = .ok e ↔ d = e)) ∧
    ((∀ p : PitStatus, PitStatus.try_from (PitStatus.code p) = .ok p) ∧
      (∀ b : Fin 256, (∃ p, PitStatus.code p = b.val) ∨
        PitStatus.try_from b.val =
          .error ⟨.invalidData, "Failed to decode pit status."⟩) ∧
      (∀ p q : PitStatus,
        PitStatus.try_from (PitStatus.code p) = .ok q ↔ p = q)) ∧
    ((∀ r : ResultStatus, ResultStatus.try_from (ResultStatus.code r) = .ok r) ∧
      (∀ b : Fin 256, (∃ r, ResultStatus.code r = b.val) ∨
        ResultStatus.try_from b.val =
          .error ⟨.invalidData, "Failed to decode result status."⟩) ∧
      (∀ r s : ResultStatus,
        ResultStatus.try_from (ResultStatus.code r) = .ok s ↔ r = s)) ∧
    ((∀ s : Sector, Sector.try_from (Sector.code s) = .ok s) ∧
      (∀ b : Fin 256, (∃ s, Sector.code s = b.val) ∨
        Sector.try_from b.val =
          .error ⟨.invalidData, "Failed to decode sector."⟩) ∧
      (∀ s t : Sector, Sector.try_from (Sector.code s) = .ok t ↔ s = t)) ∧
    ((∀ g : Gear, Gear.try_from (Gear.code g) = .ok g) ∧
      (∀ b : Fin 256, (∃ g, Gear.code g = i8_of_byte b.val) ∨
        Gear.try_from (i8_of_byte b.val) =
          .error ⟨.invalidData, "Failed to decode gear."⟩) ∧
      (∀ g h : Gear, Gear.try_from (Gear.code g) = .ok h ↔ g = h)) ∧
    ((∀ s : Surface, Surface.try_from (Surface.code s) = .ok s) ∧
      (∀ b : Fin 256, (∃ s, Surface.code s = b.val) ∨
        Surface.try_from b.val =
          .error ⟨.invalidData, "Failed to decode surface."⟩) ∧
      (∀ s t : Surface, Surface.try_from (Surface.code s) = .ok t ↔ s = t)) ∧
    ((∀ t : TractionControl,
        TractionControl.try_from (TractionControl.code t) = .ok t) ∧
      (∀ b : Fin 256, (∃ t, TractionControl.code t = b.val) ∨
        TractionControl.try_from b.val =
          .error ⟨.invalidData, "Failed to decode transaction control."⟩) ∧
      (∀ t u : TractionControl,
        TractionControl.try_from (TractionControl.code t) = .ok u ↔ t = u)) ∧
    ((∀ m : FuelMix, FuelMix.try_from (FuelMix.code m) = .ok m) ∧
      (∀ b : Fin 256, (∃ m, FuelMix.code m = b.val) ∨
        FuelMix.try_from b.val =
          .error ⟨.invalidData, "Failed to decode fuel mix."⟩) ∧
      (∀ m n : FuelMix, FuelMix.try_from (FuelMix.code m) = .ok n ↔ m = n)) ∧
    ((∀ d : DrsSetting, DrsSetting.try_from (DrsSetting.code d) = .ok d) ∧
      (∀ b : Fin 256, (∃ d, DrsSetting.code d = i8_of_byte b.val) ∨
        DrsSetting.try_from (i8_of_byte b.val) =
          .error ⟨.invalidData, "Failed to decode DRS status."⟩) ∧
      (∀ d e : DrsSetting,
        DrsSetting.try_from (DrsSetting.code d) = .ok e ↔ d = e)) ∧
    ((∀ (d : PhysicalTyreCompound) (c : Nat),
        PhysicalTyreCompound.code d = some c →
          PhysicalTyreCompound.try_from c = .ok d) ∧
      (∀ b : Fin 256, (∃ d, PhysicalTyreCompound.code d = some b.val) ∨
        PhysicalTyreCompound.try_from b.val =
          .error ⟨.invalidData, "Failed to decode physical tyre compound."⟩) ∧
      (∀ (d e : PhysicalTyreCompound) (c : Nat),
        PhysicalTyreCompound.code d = some c →
          (PhysicalTyreCompound.try_from c = .ok e ↔ d = e))) ∧
    ((∀ (d : VisualTyreCompound) (c : Nat),
        VisualTyreCompound.code d = some c →
          VisualTyreCompound.try_from c = .ok d) ∧
      (∀ b : Fin 256, (∃ d, VisualTyreCompound.code d = some b.val) ∨
        VisualTyreCompound.try_from b.val =
          .error ⟨.invalidData, "Failed to decode visual tyre compound."⟩) ∧
      (∀ (d e : VisualTyreCompound) (c : Nat),
        VisualTyreCompound.code d = some c →
          (VisualTyreCompound.try_from c = .ok e ↔ d = e))) ∧
    ((∀ e : ErsDeployMode,
        ErsDeployMode.try_from (ErsDeployMode.code e) = .ok e) ∧
      (∀ b : Fin 256, (∃ e, ErsDeployMode.code e = b.val) ∨
        ErsDeployMode.try_from b.val =
          .error ⟨.invalidData, "Failed to decode ERS deployment mode."⟩) ∧
      (∀ e f : ErsDeployMode,
        ErsDeployMode.try_from (ErsDeployMode.code e) = .ok f ↔ e = f)) ∧
    ((∀ w : Weather, Weather.try_from (Weather.code w) = .ok w) ∧
      (∀ b : Fin 256, (∃ w, Weather.code w = b.val) ∨
        Weather.try_from b.val =
          .error ⟨.invalidData, "Failed to decode weather."⟩) ∧
      (∀ w x : Weather, Weather.try_from (Weather.code w) = .ok x ↔ w = x)) ∧
    ((∀ s : SessionKind, SessionKind.try_from (SessionKind.code s) = .ok s) ∧
      (∀ b : Fin 256, (∃ s, SessionKind.code s = b.val) ∨
        SessionKind.try_from b.val =
          .error ⟨.invalidData, "Failed to decode session."⟩) ∧
      (∀ s t : SessionKind,
        SessionKind.try_from (SessionKind.code s) = .ok t ↔ s = t)) ∧
    ((∀ t : Track, Track.try_from (Track.code t) = .ok t) ∧
      (∀ b : Fin 256, (∃ t, Track.code t = i8_of_byte b.val) ∨
        Track.try_from (i8_of_byte b.val) =
          .error ⟨.invalidData, "Failed to decode track."⟩) ∧
      (∀ t u : Track, Track.try_from (Track.code t) = .ok u ↔ t = u)) ∧
    ((∀ f : Formula, Formula.try_from (Formula.code f) = .ok f) ∧
      (∀ b : Fin 256, (∃ f, Formula.code f = b.val) ∨
        Formula.try_from b.val =
          .error ⟨.invalidData, "Failed to decode formula."⟩) ∧
      (∀ f g : Formula, Formula.try_from (Formula.code f) = .ok g ↔ f = g)) ∧
    ((∀ s : SafetyCar, SafetyCar.try_from (SafetyCar.code s) = .ok s) ∧
      (∀ b : Fin 256, (∃ s, SafetyCar.code s = b.val) ∨
        SafetyCar.try_from b.val =
          .error ⟨.invalidData, "Failed to decode safety car."⟩) ∧
      (∀ s t : SafetyCar,
        SafetyCar.try_from (SafetyCar.code s) = .ok t ↔ s = t)) := by
  have hFlag : ∀ f : Flag, Flag.try_from (Flag.code f) = .ok f := by
    intro f; cases f <;> rfl
  have hDriver : ∀ d : Driver, Driver.try_from (Driver.code d) = .ok d := by
    intro d; cases d <;> rfl
  have hTeam : ∀ t : Team, Team.try_from (Team.code t) = .ok t := by
    intro t; cases t <;> rfl
  have hNat : ∀ n : Nationality,
      Nationality.try_from (Nationality.code n) = .ok n := by
    intro n; cases n <;> rfl
  have hCtrl : ∀ c : Controller,
      Controller.try_from (Controller.code c) = .ok c := by
    intro c; cases c <;> rfl
  have hUdp : ∀ u : UdpSetting,
      UdpSetting.try_from (UdpSetting.code u) = .ok u := by
    intro u; cases u <;> rfl
  have hDrvSt : ∀ d : DriverStatus,
      DriverStatus.try_from (DriverStatus.code d) = .ok d := by
    intro d; cases d <;> rfl
  have hPit : ∀ p : PitStatus,
      PitStatus.try_from (PitStatus.code p) = .ok p := by
    intro p; cases p <;> rfl
  have hRes : ∀ r : ResultStatus,
      ResultStatus.try_from (ResultStatus.code r) = .ok r := by
    intro r; cases r <;> rfl
  have hSec : ∀ s : Sector, Sector.try_from (Sector.code s) = .ok s := by
    intro s; cases s <;> rfl
  have hGear : ∀ g : Gear, Gear.try_from (Gear.code g) = .ok g := by
    intro g; cases g <;> rfl
  have hSurf : ∀ s : Surface, Surface.try_from (Surface.code s) = .ok s := by
    intro s; cases s <;> rfl
  have hTrac : ∀ t : TractionControl,
      TractionControl.try_from (TractionControl.code t) = .ok t := by
    intro t; cases t <;> rfl
  have hFuel : ∀ m : FuelMix, FuelMix.try_from (FuelMix.code m) = .ok m := by
    intro m; cases m <;> rfl
  have hDrs : ∀ d : DrsSetting,
      DrsSetting.try_from (DrsSetting.code d) = .ok d := by
    intro d; cases d <;> rfl
  have hPhys : ∀ (d : PhysicalTyreCompound) (c : Nat),
      PhysicalTyreCompound.code d = some c →
        PhysicalTyreCompound.try_from c = .ok d := by
    intro d c h
    cases d <;> simp only [PhysicalTyreCompound.code] at h <;>
      first
        | exact Option.noConfusion h
        | (injection h with h1; subst h1; rfl)
  have hVis : ∀ (d : VisualTyreCompound) (c : Nat),
      VisualTyreCompound.code d = some c →
        VisualTyreCompound.try_from c = .ok d := by
    intro d c h
    cases d <;> simp only [VisualTyreCompound.code] at h <;>
      first
        | exact Option.noConfusion h
        | (injection h with h1; subst h1; rfl)
  have hErs : ∀ e : ErsDeployMode,
      ErsDeployMode.try_from (ErsDeployMode.code e) = .ok e := by
    intro e; cases e <;> rfl
  have hWea : ∀ w : Weather, Weather.try_from (Weather.code w) = .ok w := by
    intro w; cases w <;> rfl
  have hSess : ∀ s : SessionKind,
      SessionKind.try_from (SessionKind.code s) = .ok s := by
    intro s; cases s <;> rfl
  have hTrack : ∀ t : Track, Track.try_from (Track.code t) = .ok t := by
    intro t; cases t <;> rfl
  have hFormula : ∀ f : Formula,
      Formula.try_from (Formula.code f) = .ok f := by
    intro f; cases f <;> rfl
  have hSafety : ∀ s : SafetyCar,
      SafetyCar.try_from (SafetyCar.code s) = .ok s := by
    intro s; cases s <;> rfl
  exact
    ⟨⟨hFlag,
      enum_scan_spec Flag.try_from Flag.code
        ⟨.invalidData, "Failed to decode flag."⟩ i8_of_byte scan_Flag,
      try_from_ok_iff hFlag⟩,
    ⟨hDriver,
      enum_scan_spec Driver.try_from Driver.code
        ⟨.invalidData, "Failed to decode driver."⟩ (fun n => n) scan_Driver,
      try_from_ok_iff hDriver⟩,
    ⟨hTeam,
      enum_scan_spec Team.try_from Team.code
        ⟨.invalidData, "Failed to decode team."⟩ (fun n => n) scan_Team,
      try_from_ok_iff hTeam⟩,
    ⟨hNat,
      enum_scan_spec Nationality.try_from Nationality.code
        ⟨.invalidData, "Failed to decode nationality."⟩ (fun n => n) scan_Nationality,
      try_from_ok_iff hNat⟩,
    ⟨hCtrl,
      enum_scan_spec Controller.try_from Controller.code
        ⟨.invalidData, "Failed to decode controller."⟩ (fun n => n) scan_Controller,
      try_from_ok_iff hCtrl⟩,
    ⟨hUdp,
      enum_scan_spec UdpSetting.try_from UdpSetting.code
        ⟨.invalidData, "Failed to decode UDP setting."⟩ (fun n => n) scan_UdpSetting,
      try_from_ok_iff hUdp⟩,
    ⟨hDrvSt,
      enum_scan_spec DriverStatus.try_from DriverStatus.code
        ⟨.invalidData, "Failed to decode driver status."⟩ (fun n => n)
        scan_DriverStatus,
      try_from_ok_iff hDrvSt⟩,
    ⟨hPit,
      enum_scan_spec PitStatus.try_from PitStatus.code
        ⟨.invalidData, "Failed to decode pit status."⟩ (fun n => n) scan_PitStatus,
      try_from_ok_iff hPit⟩,
    ⟨hRes,
      enum_scan_spec ResultStatus.try_from ResultStatus.code
        ⟨.invalidData, "Failed to decode result status."⟩ (fun n => n)
        scan_ResultStatus,
      try_from_ok_iff hRes⟩,
    ⟨hSec,
      enum_scan_spec Sector.try_from Sector.code
        ⟨.invalidData, "Failed to decode sector."⟩ (fun n => n) scan_Sector,
      try_from_ok_iff hSec⟩,
    ⟨hGear,
      enum_scan_spec Gear.try_from Gear.code
        ⟨.invalidData, "Failed to decode gear."⟩ i8_of_byte scan_Gear,
      try_from_ok_iff hGear⟩,
    ⟨hSurf,
      enum_scan_spec Surface.try_from Surface.code
        ⟨.invalidData, "Failed to decode surface."⟩ (fun n => n) scan_Surface,
      try_from_ok_iff hSurf⟩,
    ⟨hTrac,
      enum_scan_spec TractionControl.try_from TractionControl.code
        ⟨.invalidData, "Failed to decode transaction control."⟩ (fun n => n)
        scan_TractionControl,
      try_from_ok_iff hTrac⟩,
    ⟨hFuel,
      enum_scan_spec FuelMix.try_from FuelMix.code
        ⟨.invalidData, "Failed to decode fuel mix."⟩ (fun n => n) scan_FuelMix,
      try_from_ok_iff hFuel⟩,
    ⟨hDrs,
      enum_scan_spec DrsSetting.try_from DrsSetting.code
        ⟨.invalidData, "Failed to decode DRS status."⟩ i8_of_byte scan_DrsSetting,
      try_from_ok_iff hDrs⟩,
    ⟨hPhys,
      enum_scan_part_spec PhysicalTyreCompound.try_from
        PhysicalTyreCompound.code
        ⟨.invalidData, "Failed to decode physical tyre compound."⟩
        (fun n => n) scan_PhysicalTyreCompound,
      fun d e c h => except_ok_iff (hPhys d c h)⟩,
    ⟨hVis,
      enum_scan_part_spec VisualTyreCompound.try_from VisualTyreCompound.code
        ⟨.invalidData, "Failed to decode visual tyre compound."⟩
        (fun n => n) scan_VisualTyreCompound,
      fun d e c h => except_ok_iff (hVis d c h)⟩,
    ⟨hErs,
      enum_scan_spec ErsDeployMode.try_from ErsDeployMode.code
        ⟨.invalidData, "Failed to decode ERS deployment mode."⟩ (fun n => n)
        scan_ErsDeployMode,
      try_from_ok_iff hErs⟩,
    ⟨hWea,
      enum_scan_spec Weather.try_from Weather.code
        ⟨.invalidData, "Failed to decode weather."⟩ (fun n => n) scan_Weather,
      try_from_ok_iff hWea⟩,
    ⟨hSess,
      enum_scan_spec SessionKind.try_from SessionKind.code
        ⟨.invalidData, "Failed to decode session."⟩ (fun n => n) scan_SessionKind,
      try_from_ok_iff hSess⟩,
    ⟨hTrack,
      enum_scan_spec Track.try_from Track.code
        ⟨.invalidData, "Failed to decode track."⟩ i8_of_byte scan_Track,
      try_from_ok_iff hTrack⟩,
    ⟨hFormula,
      enum_scan_spec Formula.try_from Formula.code
        ⟨.invalidData, "Failed to decode formula."⟩ (fun n => n) scan_Formula,
      try_from_ok_iff hFormula⟩,
    ⟨hSafety,
      enum_scan_spec SafetyCar.try_from SafetyCar.code
        ⟨.invalidData, "Failed to decode safety car."⟩ (fun n => n) scan_SafetyCar,
      try_from_ok_iff hSafety⟩⟩

/-- C5 witness: the overlapping wire code 16 — a declared code of both
tyre-compound tables — decodes to `F1C5` through the physical table and to
`F1Soft` through the visual table, by the round-trip part of
`enum_decoders_exact` with the code hypotheses discharged at the concrete
variants. -/
theorem enum_decoders_exact_witness :
    PhysicalTyreCompound.try_from 16 = .ok PhysicalTyreCompound.F1C5 ∧
    VisualTyreCompound.try_from 16 = .ok VisualTyreCompound.F1Soft :=
  ⟨(enum_decoders_exact.2.2.2.2.2.2.2.2.2.2.2.2.2.2.2.1).1
      PhysicalTyreCompound.F1C5 16 rfl,
    (enum_decoders_exact.2.2.2.2.2.2.2.2.2.2.2.2.2.2.2.2.1).1
      VisualTyreCompound.F1Soft 16 rfl⟩

end F1Api
